import Mathlib

/-!
Affine geotransform math of `geotiff_map_viewer`

A shallow embedding of the numeric surface of `src/geotiffmatrix.cpp` and
`src/geotransformhandler.cpp`.

* `double` is an arbitrary linearly ordered field `K` (exact arithmetic); every
  definition is computable and can be run at `K := ℚ`.
* `int` is `Int`; the sources do no integer arithmetic, they only convert pixel
  coordinates and image dimensions to `double`.
* `double m[6]` is `Fin 6 → K`, an assignment `m[i] = v` is `Function.update m i v`.
* Diagnostics written with `qWarning()` are not part of the state and are left out.
-/

namespace GeoTiff

variable {K : Type} [LinearOrderedField K]

/-! ## Qt value types and helpers used by the sources -/

/-- Qt `QPointF`: a point with coordinates `x()` and `y()`. -/
structure QPointF (K : Type) where
  x : K
  y : K
deriving DecidableEq

/-- Modelled from the spec: Qt's `QGeoCoordinate` is a library type whose definition is not
part of the sources. It is taken as the plain pair built by `QGeoCoordinate(latitude, longitude)`
and read back by `latitude()` and `longitude()`; the range validation Qt applies to geographic
coordinates is outside this model. -/
structure QGeoCoordinate (K : Type) where
  latitude : K
  longitude : K
deriving DecidableEq

/-- Qt `qAbs(t)`: `t >= 0 ? t : -t` (also used for `std::abs`). -/
def qAbs (t : K) : K := if 0 ≤ t then t else -t

/-- Qt `qMin(a, b)`: `(a < b) ? a : b`. -/
def qMin (a b : K) : K := if a < b then a else b

/-- Qt `qMax(a, b)`: `(a < b) ? b : a`. -/
def qMax (a b : K) : K := if a < b then b else a

/-- The literal `1e-10` of the singularity tests. -/
def singularEps : K := 1 / 10000000000

/-- Qt `QMatrix4x4`, addressed as `m(row, column)`. -/
abbrev QMatrix4x4 (K : Type) := Fin 4 → Fin 4 → K

/-- The default-constructed `QMatrix4x4`, also the result of `setToIdentity()`. -/
def QMatrix4x4.identity : QMatrix4x4 K := fun i j => if i = j then 1 else 0

/-- The assignment `m(row, column) = v`. -/
def QMatrix4x4.set (m : QMatrix4x4 K) (row column : Fin 4) (v : K) : QMatrix4x4 K :=
  Function.update m row (Function.update (m row) column v)

/-- The product of a `QMatrix4x4` with the column vector `(v0, v1, v2, v3)`. -/
def QMatrix4x4.mulVec (m : QMatrix4x4 K) (v : Fin 4 → K) : Fin 4 → K :=
  fun i => m i 0 * v 0 + m i 1 * v 1 + m i 2 * v 2 + m i 3 * v 3

/-! ## `GeoTiffMatrix` (src/geotiffmatrix.h, src/geotiffmatrix.cpp) -/

/-- The data members of `GeoTiffMatrix`. -/
structure GeoTiffMatrix (K : Type) where
  m_geoTransform : Fin 6 → K
  m_width : Int
  m_height : Int
  m_pixelToWorldMatrix : QMatrix4x4 K
  m_worldToPixelMatrix : QMatrix4x4 K

namespace GeoTiffMatrix

/-- The constructor `GeoTiffMatrix::GeoTiffMatrix`: zero coefficients and dimensions, both
matrices default-constructed. -/
def new : GeoTiffMatrix K where
  m_geoTransform := fun _ => 0
  m_width := 0
  m_height := 0
  m_pixelToWorldMatrix := QMatrix4x4.identity
  m_worldToPixelMatrix := QMatrix4x4.identity

/-- The private `GeoTiffMatrix::updateMatrices`. -/
def updateMatrices (s : GeoTiffMatrix K) : GeoTiffMatrix K :=
  let g := s.m_geoTransform
  let s1 := { s with m_worldToPixelMatrix := QMatrix4x4.identity }
  let det := g 1 * g 5 - g 2 * g 4
  if qAbs det < singularEps then
    s1
  else
    let invDet := 1 / det
    let a := g 5 * invDet
    let b := -g 2 * invDet
    let c := (g 2 * g 3 - g 0 * g 5) * invDet
    let d := -g 4 * invDet
    let e := g 1 * invDet
    let f := (g 0 * g 4 - g 1 * g 3) * invDet
    let w2p := ((((((s1.m_worldToPixelMatrix.set 0 0 a).set 0 1 b).set 0 3 c).set 1 0 d).set
      1 1 e).set 1 3 f).set 3 3 1
    let p2w := ((((((QMatrix4x4.identity.set 0 0 (g 1)).set 0 1 (g 2)).set 0 3 (g 0)).set
      1 0 (g 4)).set 1 1 (g 5)).set 1 3 (g 3)).set 3 3 1
    { s1 with m_worldToPixelMatrix := w2p, m_pixelToWorldMatrix := p2w }

/-- The method `GeoTiffMatrix::setGeoTransform`. -/
def setGeoTransform (coefficients : List K) (width height : Int) (s : GeoTiffMatrix K) :
    GeoTiffMatrix K :=
  if coefficients.length ≠ 6 then
    s
  else
    updateMatrices
      { s with
        m_geoTransform := fun i => coefficients.getD i.val 0
        m_width := width
        m_height := height }

/-- The method `GeoTiffMatrix::getTransformationMatrix`. -/
def getTransformationMatrix (s : GeoTiffMatrix K) : QMatrix4x4 K :=
  s.m_pixelToWorldMatrix

/-- The method `GeoTiffMatrix::worldToPixel`. -/
def worldToPixel (s : GeoTiffMatrix K) (lon lat : K) : QPointF K :=
  let g := s.m_geoTransform
  let det := g 1 * g 5 - g 2 * g 4
  if qAbs det < singularEps then
    ⟨0, 0⟩
  else
    let invDet := 1 / det
    let x := g 5 * invDet * (lon - g 0) - g 2 * invDet * (lat - g 3)
    let y := -g 4 * invDet * (lon - g 0) + g 1 * invDet * (lat - g 3)
    ⟨x, y⟩

/-- The method `GeoTiffMatrix::pixelToWorld`. -/
def pixelToWorld (s : GeoTiffMatrix K) (pixelX pixelY : Int) : QPointF K :=
  let g := s.m_geoTransform
  let lon := g 0 + (pixelX : K) * g 1 + (pixelY : K) * g 2
  let lat := g 3 + (pixelX : K) * g 4 + (pixelY : K) * g 5
  ⟨lon, lat⟩

/-- The method `GeoTiffMatrix::getImageCorners`. -/
def getImageCorners (s : GeoTiffMatrix K) : List (QPointF K) :=
  [pixelToWorld s 0 0,
   pixelToWorld s s.m_width 0,
   pixelToWorld s s.m_width s.m_height,
   pixelToWorld s 0 s.m_height]

/-- The running extremes `(minLon, minLat, maxLon, maxLat)` of the loop in `getBoundingBox`. -/
structure Extremes (K : Type) where
  minLon : K
  minLat : K
  maxLon : K
  maxLat : K

/-- One iteration of the loop in `getBoundingBox`. -/
def Extremes.step (e : Extremes K) (p : QPointF K) : Extremes K :=
  { minLon := qMin e.minLon p.x
    minLat := qMin e.minLat p.y
    maxLon := qMax e.maxLon p.x
    maxLat := qMax e.maxLat p.y }

/-- The method `GeoTiffMatrix::getBoundingBox`, returning `[minLon, minLat, maxLon, maxLat]`. -/
def getBoundingBox (s : GeoTiffMatrix K) : List K :=
  match getImageCorners s with
  | [] => [0, 0, 0, 0]
  | c0 :: rest =>
    let e := rest.foldl Extremes.step ⟨c0.x, c0.y, c0.x, c0.y⟩
    [e.minLon, e.minLat, e.maxLon, e.maxLat]

end GeoTiffMatrix

/-! ## `GeoTransformHandler` (src/geotransformhandler.h, src/geotransformhandler.cpp) -/

/-- The data members of `GeoTransformHandler`; `QPolygonF` is a list of `QPointF`. -/
structure GeoTransformHandler (K : Type) where
  m_geoTransform : Fin 6 → K
  m_inverseTransform : Fin 6 → K
  m_imageWidth : Int
  m_imageHeight : Int
  m_imageCorners : List (QPointF K)

namespace GeoTransformHandler

/-- The constructor `GeoTransformHandler::GeoTransformHandler`. -/
def new : GeoTransformHandler K where
  m_geoTransform := fun _ => 0
  m_inverseTransform := fun _ => 0
  m_imageWidth := 0
  m_imageHeight := 0
  m_imageCorners := []

/-- The method `GeoTransformHandler::worldToPixel`. -/
def worldToPixel (s : GeoTransformHandler K) (lon lat : K) : QPointF K :=
  let inv := s.m_inverseTransform
  let pixelX := inv 0 * lon + inv 1 * lat + inv 2
  let pixelY := inv 3 * lon + inv 4 * lat + inv 5
  ⟨pixelX, pixelY⟩

/-- The method `GeoTransformHandler::pixelToWorld`; the result is built as
`QGeoCoordinate(worldY, worldX)`. -/
def pixelToWorld (s : GeoTransformHandler K) (pixelX pixelY : Int) : QGeoCoordinate K :=
  let g := s.m_geoTransform
  let worldX := g 0 + (pixelX : K) * g 1 + (pixelY : K) * g 2
  let worldY := g 3 + (pixelX : K) * g 4 + (pixelY : K) * g 5
  ⟨worldY, worldX⟩

/-- The method `GeoTransformHandler::getImageCornerCoordinates`. -/
def getImageCornerCoordinates (s : GeoTransformHandler K) : List (QPointF K) :=
  s.m_imageCorners

/-- The private `GeoTransformHandler::calculateInverseTransform`. -/
def calculateInverseTransform (s : GeoTransformHandler K) : GeoTransformHandler K :=
  let g := s.m_geoTransform
  let det := g 1 * g 5 - g 2 * g 4
  if qAbs det < singularEps then
    s
  else
    let invDet := 1 / det
    let inv0 := Function.update s.m_inverseTransform 0 (g 5 * invDet)
    let inv1 := Function.update inv0 1 (-g 2 * invDet)
    let inv2 := Function.update inv1 3 (-g 4 * invDet)
    let inv3 := Function.update inv2 4 (g 1 * invDet)
    let inv4 := Function.update inv3 2 (-g 0 * inv3 0 - g 3 * inv3 1)
    let inv5 := Function.update inv4 5 (-g 0 * inv4 3 - g 3 * inv4 4)
    { s with m_inverseTransform := inv5 }

/-- The method `GeoTransformHandler::updateTransform`. The divisions by `imageWidth` and
`imageHeight` are those of the field `K`; the source has no guard against zero dimensions. -/
def updateTransform (topLeftLon topLeftLat topRightLon topRightLat bottomLeftLon bottomLeftLat
    bottomRightLon bottomRightLat : K) (imageWidth imageHeight : Int)
    (s : GeoTransformHandler K) : GeoTransformHandler K :=
  let corners : List (QPointF K) :=
    [⟨topLeftLon, topLeftLat⟩, ⟨topRightLon, topRightLat⟩,
     ⟨bottomRightLon, bottomRightLat⟩, ⟨bottomLeftLon, bottomLeftLat⟩]
  let g0 := Function.update s.m_geoTransform 0 topLeftLon
  let g1 := Function.update g0 1 ((topRightLon - topLeftLon) / (imageWidth : K))
  let g2 := Function.update g1 2 ((bottomLeftLon - topLeftLon) / (imageHeight : K))
  let g3 := Function.update g2 3 topLeftLat
  let g4 := Function.update g3 4 ((topRightLat - topLeftLat) / (imageWidth : K))
  let g5 := Function.update g4 5 ((bottomLeftLat - topLeftLat) / (imageHeight : K))
  calculateInverseTransform
    { s with
      m_imageWidth := imageWidth
      m_imageHeight := imageHeight
      m_imageCorners := corners
      m_geoTransform := g5 }

/-- The method `GeoTransformHandler::updateTransformFromGDAL`. -/
def updateTransformFromGDAL (originX originY pixelWidth pixelHeight rotationX rotationY : K)
    (imageWidth imageHeight : Int) (s : GeoTransformHandler K) : GeoTransformHandler K :=
  let g0 := Function.update s.m_geoTransform 0 originX
  let g1 := Function.update g0 1 pixelWidth
  let g2 := Function.update g1 2 rotationX
  let g3 := Function.update g2 3 originY
  let g4 := Function.update g3 4 rotationY
  let g5 := Function.update g4 5 pixelHeight
  let s1 : GeoTransformHandler K :=
    { s with m_imageWidth := imageWidth, m_imageHeight := imageHeight, m_geoTransform := g5 }
  let topLeft := pixelToWorld s1 0 0
  let topRight := pixelToWorld s1 imageWidth 0
  let bottomLeft := pixelToWorld s1 0 imageHeight
  let bottomRight := pixelToWorld s1 imageWidth imageHeight
  let corners : List (QPointF K) :=
    [⟨topLeft.longitude, topLeft.latitude⟩, ⟨topRight.longitude, topRight.latitude⟩,
     ⟨bottomRight.longitude, bottomRight.latitude⟩, ⟨bottomLeft.longitude, bottomLeft.latitude⟩]
  calculateInverseTransform { s1 with m_imageCorners := corners }

/-- A call of one of the two public mutators of `GeoTransformHandler`. -/
inductive Update (K : Type) where
  | corners (topLeftLon topLeftLat topRightLon topRightLat bottomLeftLon bottomLeftLat
      bottomRightLon bottomRightLat : K) (imageWidth imageHeight : Int)
  | gdal (originX originY pixelWidth pixelHeight rotationX rotationY : K)
      (imageWidth imageHeight : Int)

/-- Performs the call `u` on the state `s`. -/
def Update.apply (u : Update K) (s : GeoTransformHandler K) : GeoTransformHandler K :=
  match u with
  | .corners a b c d e f g h w t => updateTransform a b c d e f g h w t s
  | .gdal a b c d e f w t => updateTransformFromGDAL a b c d e f w t s

/-- The calls on which the exact-arithmetic reading of the source is defined: `updateTransform`
divides by `imageWidth` and `imageHeight`, so both must be nonzero there. -/
def Update.defined (u : Update K) : Prop :=
  match u with
  | .corners _ _ _ _ _ _ _ _ w t => w ≠ 0 ∧ t ≠ 0
  | .gdal _ _ _ _ _ _ _ _ => True

/-- The determinant `c1*c5 - c2*c4` of the coefficients stored in `s`. -/
def det (s : GeoTransformHandler K) : K :=
  s.m_geoTransform 1 * s.m_geoTransform 5 - s.m_geoTransform 2 * s.m_geoTransform 4

/-- Performs the calls `us` one after the other, the head of the list first. -/
def Update.run (us : List (Update K)) (s : GeoTransformHandler K) : GeoTransformHandler K :=
  us.foldl (fun t u => u.apply t) s

/-- The calls of `updateTransformFromGDAL` whose coefficients fail the singularity test of
`calculateInverseTransform`: `|pixelWidth*pixelHeight - rotationX*rotationY| < 1e-10`. -/
def Update.singularGDAL (u : Update K) : Prop :=
  match u with
  | .corners _ _ _ _ _ _ _ _ _ _ => False
  | .gdal _ _ pixelWidth pixelHeight rotationX rotationY _ _ =>
    |pixelWidth * pixelHeight - rotationX * rotationY| < singularEps

end GeoTransformHandler

/-! ## Auxiliary facts -/

theorem qAbs_eq_abs (t : K) : qAbs t = |t| := by
  unfold qAbs
  split_ifs with h
  · exact (abs_of_nonneg h).symm
  · exact (abs_of_neg (not_le.mp h)).symm

theorem qMin_eq_min (a b : K) : qMin a b = min a b := by
  unfold qMin
  split_ifs with h
  · exact (min_eq_left h.le).symm
  · exact (min_eq_right (not_lt.mp h)).symm

theorem qMax_eq_max (a b : K) : qMax a b = max a b := by
  unfold qMax
  split_ifs with h
  · exact (max_eq_right h.le).symm
  · exact (max_eq_left (not_lt.mp h)).symm

theorem singularEps_pos : (0 : K) < singularEps := by
  unfold singularEps
  positivity

theorem det_ne_zero_of_eps_le {d : K} (h : singularEps ≤ |d|) : d ≠ 0 := by
  intro h0
  rw [h0, abs_zero] at h
  exact absurd (singularEps_pos (K := K)) (not_lt.mpr h)

namespace GeoTiffMatrix

theorem updateMatrices_geoTransform (s : GeoTiffMatrix K) :
    (updateMatrices s).m_geoTransform = s.m_geoTransform := by
  unfold updateMatrices
  dsimp only
  split_ifs <;> rfl

theorem updateMatrices_width (s : GeoTiffMatrix K) :
    (updateMatrices s).m_width = s.m_width := by
  unfold updateMatrices
  dsimp only
  split_ifs <;> rfl

theorem updateMatrices_height (s : GeoTiffMatrix K) :
    (updateMatrices s).m_height = s.m_height := by
  unfold updateMatrices
  dsimp only
  split_ifs <;> rfl

theorem setGeoTransform_geoTransform (s : GeoTiffMatrix K) (c0 c1 c2 c3 c4 c5 : K)
    (W H : Int) :
    (setGeoTransform [c0, c1, c2, c3, c4, c5] W H s).m_geoTransform
      = ![c0, c1, c2, c3, c4, c5] := by
  unfold setGeoTransform
  rw [if_neg (by simp), updateMatrices_geoTransform]
  funext i
  fin_cases i <;> rfl

theorem setGeoTransform_width (s : GeoTiffMatrix K) (c0 c1 c2 c3 c4 c5 : K) (W H : Int) :
    (setGeoTransform [c0, c1, c2, c3, c4, c5] W H s).m_width = W := by
  unfold setGeoTransform
  rw [if_neg (by simp), updateMatrices_width]

theorem setGeoTransform_height (s : GeoTiffMatrix K) (c0 c1 c2 c3 c4 c5 : K) (W H : Int) :
    (setGeoTransform [c0, c1, c2, c3, c4, c5] W H s).m_height = H := by
  unfold setGeoTransform
  rw [if_neg (by simp), updateMatrices_height]

end GeoTiffMatrix

namespace GeoTransformHandler

theorem calculateInverseTransform_geoTransform (s : GeoTransformHandler K) :
    (calculateInverseTransform s).m_geoTransform = s.m_geoTransform := by
  unfold calculateInverseTransform
  dsimp only
  split_ifs <;> rfl

theorem updateTransformFromGDAL_geoTransform (s : GeoTransformHandler K)
    (originX originY pixelWidth pixelHeight rotationX rotationY : K) (W H : Int) :
    (updateTransformFromGDAL originX originY pixelWidth pixelHeight rotationX rotationY W H
      s).m_geoTransform = ![originX, pixelWidth, rotationX, originY, rotationY, pixelHeight] := by
  unfold updateTransformFromGDAL
  dsimp only
  rw [calculateInverseTransform_geoTransform]
  funext i
  fin_cases i <;> rfl

theorem calculateInverseTransform_inverse_of_regular (s : GeoTransformHandler K)
    (h : singularEps ≤ |det s|) :
    (calculateInverseTransform s).m_inverseTransform
      = ![s.m_geoTransform 5 * (1 / det s),
          -s.m_geoTransform 2 * (1 / det s),
          -s.m_geoTransform 0 * (s.m_geoTransform 5 * (1 / det s))
            - s.m_geoTransform 3 * (-s.m_geoTransform 2 * (1 / det s)),
          -s.m_geoTransform 4 * (1 / det s),
          s.m_geoTransform 1 * (1 / det s),
          -s.m_geoTransform 0 * (-s.m_geoTransform 4 * (1 / det s))
            - s.m_geoTransform 3 * (s.m_geoTransform 1 * (1 / det s))] := by
  unfold calculateInverseTransform
  dsimp only
  rw [if_neg (by rw [qAbs_eq_abs]; exact not_lt.mpr h)]
  funext i
  fin_cases i <;> rfl

theorem calculateInverseTransform_of_singular (s : GeoTransformHandler K)
    (h : |det s| < singularEps) : calculateInverseTransform s = s := by
  unfold calculateInverseTransform
  dsimp only
  rw [if_pos (by rw [qAbs_eq_abs]; exact h)]

theorem updateTransformFromGDAL_inverse_of_regular (s : GeoTransformHandler K)
    (originX originY pixelWidth pixelHeight rotationX rotationY : K) (W H : Int)
    (hdet : singularEps ≤ |pixelWidth * pixelHeight - rotationX * rotationY|) :
    (updateTransformFromGDAL originX originY pixelWidth pixelHeight rotationX rotationY W H
      s).m_inverseTransform
      = ![pixelHeight * (1 / (pixelWidth * pixelHeight - rotationX * rotationY)),
          -rotationX * (1 / (pixelWidth * pixelHeight - rotationX * rotationY)),
          -originX * (pixelHeight * (1 / (pixelWidth * pixelHeight - rotationX * rotationY)))
            - originY * (-rotationX * (1 / (pixelWidth * pixelHeight - rotationX * rotationY))),
          -rotationY * (1 / (pixelWidth * pixelHeight - rotationX * rotationY)),
          pixelWidth * (1 / (pixelWidth * pixelHeight - rotationX * rotationY)),
          -originX * (-rotationY * (1 / (pixelWidth * pixelHeight - rotationX * rotationY)))
            - originY * (pixelWidth * (1 / (pixelWidth * pixelHeight - rotationX * rotationY)))] := by
  unfold updateTransformFromGDAL
  dsimp only
  rw [calculateInverseTransform_inverse_of_regular]
  · rfl
  · exact hdet

end GeoTransformHandler

/-! ## Round trips and singularity -/

theorem vec6_zero {α : Type} (a b c d e f : α) : (![a, b, c, d, e, f] : Fin 6 → α) 0 = a := rfl

theorem vec6_one {α : Type} (a b c d e f : α) : (![a, b, c, d, e, f] : Fin 6 → α) 1 = b := rfl

theorem vec6_two {α : Type} (a b c d e f : α) : (![a, b, c, d, e, f] : Fin 6 → α) 2 = c := rfl

theorem vec6_three {α : Type} (a b c d e f : α) : (![a, b, c, d, e, f] : Fin 6 → α) 3 = d := rfl

theorem vec6_four {α : Type} (a b c d e f : α) : (![a, b, c, d, e, f] : Fin 6 → α) 4 = e := rfl

theorem vec6_five {α : Type} (a b c d e f : α) : (![a, b, c, d, e, f] : Fin 6 → α) 5 = f := rfl

/-- C1: after `updateTransformFromGDAL` with coefficients whose determinant satisfies
`|pixelWidth*pixelHeight - rotationX*rotationY| >= 1e-10`, from any prior state, feeding the
longitude and latitude of `pixelToWorld(px, py)` into `worldToPixel` returns exactly `(px, py)`,
for all integer pixels. -/
theorem handler_round_trip (s : GeoTransformHandler K)
    (originX originY pixelWidth pixelHeight rotationX rotationY : K) (W H px py : Int)
    (hdet : singularEps ≤ |pixelWidth * pixelHeight - rotationX * rotationY|) :
    (GeoTransformHandler.updateTransformFromGDAL originX originY pixelWidth pixelHeight
        rotationX rotationY W H s).worldToPixel
      ((GeoTransformHandler.updateTransformFromGDAL originX originY pixelWidth pixelHeight
        rotationX rotationY W H s).pixelToWorld px py).longitude
      ((GeoTransformHandler.updateTransformFromGDAL originX originY pixelWidth pixelHeight
        rotationX rotationY W H s).pixelToWorld px py).latitude
      = ⟨(px : K), (py : K)⟩ := by
  have hne : pixelWidth * pixelHeight - rotationX * rotationY ≠ 0 := det_ne_zero_of_eps_le hdet
  have hgeo := GeoTransformHandler.updateTransformFromGDAL_geoTransform s originX originY
    pixelWidth pixelHeight rotationX rotationY W H
  have hinv := GeoTransformHandler.updateTransformFromGDAL_inverse_of_regular s originX originY
    pixelWidth pixelHeight rotationX rotationY W H hdet
  simp only [GeoTransformHandler.worldToPixel, GeoTransformHandler.pixelToWorld, hgeo, hinv,
    vec6_zero, vec6_one, vec6_two, vec6_three, vec6_four, vec6_five, QPointF.mk.injEq]
  constructor <;> field_simp <;> ring

/-- Witness of C1 for a rotated transform at `K := ℚ`. -/
theorem handler_round_trip_witness :
    (GeoTransformHandler.updateTransformFromGDAL (100 : ℚ) 200 2 (-1) 1 3 10 5
        GeoTransformHandler.new).worldToPixel
      ((GeoTransformHandler.updateTransformFromGDAL (100 : ℚ) 200 2 (-1) 1 3 10 5
        GeoTransformHandler.new).pixelToWorld 7 4).longitude
      ((GeoTransformHandler.updateTransformFromGDAL (100 : ℚ) 200 2 (-1) 1 3 10 5
        GeoTransformHandler.new).pixelToWorld 7 4).latitude
      = ⟨((7 : Int) : ℚ), ((4 : Int) : ℚ)⟩ :=
  handler_round_trip GeoTransformHandler.new 100 200 2 (-1) 1 3 10 5 7 4
    (by norm_num [singularEps, abs_of_neg])

/-- C2: after `setGeoTransform` with six coefficients whose determinant satisfies
`|c1*c5 - c2*c4| >= 1e-10`, `worldToPixel` applied to the point returned by
`pixelToWorld(px, py)` returns exactly `(px, py)`, for all integer pixels. -/
theorem matrix_round_trip (s : GeoTiffMatrix K) (c0 c1 c2 c3 c4 c5 : K) (W H px py : Int)
    (hdet : singularEps ≤ |c1 * c5 - c2 * c4|) :
    (GeoTiffMatrix.setGeoTransform [c0, c1, c2, c3, c4, c5] W H s).worldToPixel
      ((GeoTiffMatrix.setGeoTransform [c0, c1, c2, c3, c4, c5] W H s).pixelToWorld px py).x
      ((GeoTiffMatrix.setGeoTransform [c0, c1, c2, c3, c4, c5] W H s).pixelToWorld px py).y
      = ⟨(px : K), (py : K)⟩ := by
  have hne : c1 * c5 - c2 * c4 ≠ 0 := det_ne_zero_of_eps_le hdet
  have hgeo := GeoTiffMatrix.setGeoTransform_geoTransform s c0 c1 c2 c3 c4 c5 W H
  simp only [GeoTiffMatrix.worldToPixel, GeoTiffMatrix.pixelToWorld, hgeo,
    vec6_zero, vec6_one, vec6_two, vec6_three, vec6_four, vec6_five]
  rw [if_neg (by rw [qAbs_eq_abs]; exact not_lt.mpr hdet)]
  rw [QPointF.mk.injEq]
  constructor <;> field_simp <;> ring

/-- Witness of C2 for a rotated transform at `K := ℚ`. -/
theorem matrix_round_trip_witness :
    (GeoTiffMatrix.setGeoTransform [(100 : ℚ), 2, 1, 200, 3, -1] 10 5
        GeoTiffMatrix.new).worldToPixel
      ((GeoTiffMatrix.setGeoTransform [(100 : ℚ), 2, 1, 200, 3, -1] 10 5
        GeoTiffMatrix.new).pixelToWorld 7 4).x
      ((GeoTiffMatrix.setGeoTransform [(100 : ℚ), 2, 1, 200, 3, -1] 10 5
        GeoTiffMatrix.new).pixelToWorld 7 4).y
      = ⟨((7 : Int) : ℚ), ((4 : Int) : ℚ)⟩ :=
  matrix_round_trip GeoTiffMatrix.new 100 2 1 200 3 (-1) 10 5 7 4
    (by norm_num [singularEps, abs_of_neg])

/-- C3: after `setGeoTransform` with six coefficients satisfying `c1*c5 = c2*c4`,
`worldToPixel(x, y)` returns the sentinel `(0, 0)` for every world point; this covers the
all-zero coefficients and `[0,1,1,0,2,2]`. -/
theorem matrix_singular_sentinel (s : GeoTiffMatrix K) (c0 c1 c2 c3 c4 c5 x y : K)
    (W H : Int) (hsing : c1 * c5 = c2 * c4) :
    (GeoTiffMatrix.setGeoTransform [c0, c1, c2, c3, c4, c5] W H s).worldToPixel x y
      = ⟨0, 0⟩ := by
  have hgeo := GeoTiffMatrix.setGeoTransform_geoTransform s c0 c1 c2 c3 c4 c5 W H
  simp only [GeoTiffMatrix.worldToPixel, hgeo, vec6_one, vec6_two, vec6_four, vec6_five]
  rw [if_pos]
  rw [qAbs_eq_abs, hsing, sub_self, abs_zero]
  exact singularEps_pos

/-- Witness of C3: the coefficients `[0,1,1,0,2,2]` and the all-zero coefficients at
`K := ℚ`. -/
theorem matrix_singular_sentinel_witness :
    (GeoTiffMatrix.setGeoTransform [(0 : ℚ), 1, 1, 0, 2, 2] 10 5
        GeoTiffMatrix.new).worldToPixel 3 4 = ⟨0, 0⟩ ∧
    (GeoTiffMatrix.setGeoTransform [(0 : ℚ), 0, 0, 0, 0, 0] 10 5
        GeoTiffMatrix.new).worldToPixel 3 4 = ⟨0, 0⟩ :=
  ⟨matrix_singular_sentinel GeoTiffMatrix.new 0 1 1 0 2 2 3 4 10 5 (by norm_num),
   matrix_singular_sentinel GeoTiffMatrix.new 0 0 0 0 0 0 3 4 10 5 (by norm_num)⟩

/-! ## Singular updates of `GeoTransformHandler` -/

theorem GeoTransformHandler.det_calculateInverseTransform (s : GeoTransformHandler K) :
    (GeoTransformHandler.calculateInverseTransform s).det = s.det := by
  unfold GeoTransformHandler.det
  rw [GeoTransformHandler.calculateInverseTransform_geoTransform]

theorem GeoTransformHandler.calculateInverseTransform_inverse_of_singular
    (s : GeoTransformHandler K)
    (h : |(GeoTransformHandler.calculateInverseTransform s).det| < singularEps) :
    (GeoTransformHandler.calculateInverseTransform s).m_inverseTransform
      = s.m_inverseTransform := by
  rw [GeoTransformHandler.det_calculateInverseTransform] at h
  rw [GeoTransformHandler.calculateInverseTransform_of_singular s h]

theorem GeoTransformHandler.apply_inverse_of_singular (s : GeoTransformHandler K)
    (u : GeoTransformHandler.Update K) (h : |(u.apply s).det| < singularEps) :
    (u.apply s).m_inverseTransform = s.m_inverseTransform := by
  cases u with
  | corners a b c d e f g i w t =>
    exact GeoTransformHandler.calculateInverseTransform_inverse_of_singular _ h
  | gdal a b c d e f w t =>
    exact GeoTransformHandler.calculateInverseTransform_inverse_of_singular _ h

theorem GeoTransformHandler.det_updateTransformFromGDAL (s : GeoTransformHandler K)
    (originX originY pixelWidth pixelHeight rotationX rotationY : K) (W H : Int) :
    (GeoTransformHandler.updateTransformFromGDAL originX originY pixelWidth pixelHeight rotationX
      rotationY W H s).det = pixelWidth * pixelHeight - rotationX * rotationY := by
  simp only [GeoTransformHandler.det, GeoTransformHandler.updateTransformFromGDAL_geoTransform,
    vec6_one, vec6_two, vec6_four, vec6_five]

/-- C4, as stated, fails: after the north-up transform `[100,1,0,200,0,-1]` the singular update
`[0,1,1,0,2,2]` leaves `det = 0`, and `worldToPixel(105, 198)` still returns `(5, 2)`, computed
from the inverse of the earlier transform, not the `(0, 0)` sentinel. -/
theorem handler_singular_not_surfaced_counterexample :
    |(GeoTransformHandler.updateTransformFromGDAL (0 : ℚ) 0 1 2 1 2 10 5
        (GeoTransformHandler.updateTransformFromGDAL 100 200 1 (-1) 0 0 10 5
          GeoTransformHandler.new)).det| < singularEps ∧
    (GeoTransformHandler.updateTransformFromGDAL (0 : ℚ) 0 1 2 1 2 10 5
        (GeoTransformHandler.updateTransformFromGDAL 100 200 1 (-1) 0 0 10 5
          GeoTransformHandler.new)).worldToPixel 105 198 = ⟨5, 2⟩ ∧
    (GeoTransformHandler.updateTransformFromGDAL (0 : ℚ) 0 1 2 1 2 10 5
        (GeoTransformHandler.updateTransformFromGDAL 100 200 1 (-1) 0 0 10 5
          GeoTransformHandler.new)).worldToPixel 105 198 ≠ ⟨0, 0⟩ := by
  have hdet : (GeoTransformHandler.updateTransformFromGDAL (0 : ℚ) 0 1 2 1 2 10 5
        (GeoTransformHandler.updateTransformFromGDAL 100 200 1 (-1) 0 0 10 5
          GeoTransformHandler.new)).det = 0 := by
    simp only [GeoTransformHandler.det, GeoTransformHandler.updateTransformFromGDAL_geoTransform,
      vec6_one, vec6_two, vec6_four, vec6_five]
    norm_num
  have hsing : |(GeoTransformHandler.updateTransformFromGDAL (0 : ℚ) 0 1 2 1 2 10 5
        (GeoTransformHandler.updateTransformFromGDAL 100 200 1 (-1) 0 0 10 5
          GeoTransformHandler.new)).det| < singularEps := by
    rw [hdet, abs_zero]
    exact singularEps_pos
  have hinv := GeoTransformHandler.apply_inverse_of_singular
    (GeoTransformHandler.updateTransformFromGDAL (100 : ℚ) 200 1 (-1) 0 0 10 5
      GeoTransformHandler.new) (.gdal 0 0 1 2 1 2 10 5) hsing
  simp only [GeoTransformHandler.Update.apply] at hinv
  have hold := GeoTransformHandler.updateTransformFromGDAL_inverse_of_regular
    (GeoTransformHandler.new : GeoTransformHandler ℚ) 100 200 1 (-1) 0 0 10 5
    (by norm_num [singularEps, abs_of_neg])
  have hval : (GeoTransformHandler.updateTransformFromGDAL (0 : ℚ) 0 1 2 1 2 10 5
        (GeoTransformHandler.updateTransformFromGDAL 100 200 1 (-1) 0 0 10 5
          GeoTransformHandler.new)).worldToPixel 105 198 = ⟨5, 2⟩ := by
    simp only [GeoTransformHandler.worldToPixel, hinv, hold, vec6_zero, vec6_one, vec6_two,
      vec6_three, vec6_four, vec6_five]
    norm_num
  refine ⟨hsing, hval, ?_⟩
  rw [hval]
  simp

/-- C4, amended: after an update (`updateTransform` with nonzero dimensions, or
`updateTransformFromGDAL`) that produced coefficients with `|c1*c5 - c2*c4| < 1e-10`, the cached
inverse is the one held before the update and `worldToPixel(x, y)` returns the value computed
from it, the same point as before the update; it is `(0, 0)` for every point when the cached
inverse is still the all-zero one set by the constructor. -/
theorem handler_singular_update_uses_cached_inverse (s : GeoTransformHandler K)
    (u : GeoTransformHandler.Update K) (_hu : u.defined)
    (hsing : |(u.apply s).det| < singularEps) (x y : K) :
    (u.apply s).m_inverseTransform = s.m_inverseTransform ∧
    (u.apply s).worldToPixel x y = s.worldToPixel x y ∧
    (s.m_inverseTransform = (GeoTransformHandler.new : GeoTransformHandler K).m_inverseTransform →
      (u.apply s).worldToPixel x y = ⟨0, 0⟩) := by
  have hinv := GeoTransformHandler.apply_inverse_of_singular s u hsing
  refine ⟨hinv, ?_, ?_⟩
  · simp only [GeoTransformHandler.worldToPixel, hinv]
  · intro hzero
    simp only [GeoTransformHandler.worldToPixel, hinv, hzero, GeoTransformHandler.new]
    simp

/-- Witness of C4, amended: the singular update `[0,1,1,0,2,2]` applied after the north-up
transform `[100,1,0,200,0,-1]`, at `K := ℚ`. -/
theorem handler_singular_update_uses_cached_inverse_witness :
    ((GeoTransformHandler.Update.gdal (0 : ℚ) 0 1 2 1 2 10 5).apply
        (GeoTransformHandler.updateTransformFromGDAL 100 200 1 (-1) 0 0 10 5
          GeoTransformHandler.new)).worldToPixel 105 198
      = (GeoTransformHandler.updateTransformFromGDAL (100 : ℚ) 200 1 (-1) 0 0 10 5
          GeoTransformHandler.new).worldToPixel 105 198 :=
  (handler_singular_update_uses_cached_inverse
    (GeoTransformHandler.updateTransformFromGDAL (100 : ℚ) 200 1 (-1) 0 0 10 5
      GeoTransformHandler.new)
    (.gdal 0 0 1 2 1 2 10 5) trivial
    (by
      simp only [GeoTransformHandler.Update.apply, GeoTransformHandler.det_updateTransformFromGDAL]
      norm_num [singularEps])
    105 198).2.1

/-! ## `setGeoTransform`, corners and bounding box of `GeoTiffMatrix` -/

/-- C5: `setGeoTransform` called with a coefficient list whose length is not 6 leaves the whole
state unchanged: coefficients, width, height and both matrices. -/
theorem matrix_invalid_argument_unchanged (s : GeoTiffMatrix K) (coefficients : List K)
    (W H : Int) (hlen : coefficients.length ≠ 6) :
    GeoTiffMatrix.setGeoTransform coefficients W H s = s := by
  unfold GeoTiffMatrix.setGeoTransform
  rw [if_pos hlen]

/-- Witness of C5: five coefficients, at `K := ℚ`. -/
theorem matrix_invalid_argument_unchanged_witness :
    GeoTiffMatrix.setGeoTransform [(100 : ℚ), 1, 0, 200, 0] 10 5
        (GeoTiffMatrix.setGeoTransform [7, 2, 1, 9, 3, -1] 4 3 GeoTiffMatrix.new)
      = GeoTiffMatrix.setGeoTransform [7, 2, 1, 9, 3, -1] 4 3 GeoTiffMatrix.new :=
  matrix_invalid_argument_unchanged _ [100, 1, 0, 200, 0] 10 5 (by decide)

/-- C6: after `setGeoTransform(c, W, H)` with six coefficients, `getImageCorners` returns
`pixelToWorld` at `(0,0)`, `(W,0)`, `(W,H)`, `(0,H)` in that order, that is `(c0, c3)`,
`(c0+W*c1, c3+W*c4)`, `(c0+W*c1+H*c2, c3+W*c4+H*c5)`, `(c0+H*c2, c3+H*c5)`; for
`c = [100,1,0,200,0,-1]`, `W = 10`, `H = 5` this is `[(100,200), (110,200), (110,195),
(100,195)]`. -/
theorem matrix_corner_order (s : GeoTiffMatrix K) (c0 c1 c2 c3 c4 c5 : K) (W H : Int) :
    (GeoTiffMatrix.setGeoTransform [c0, c1, c2, c3, c4, c5] W H s).getImageCorners
      = [(GeoTiffMatrix.setGeoTransform [c0, c1, c2, c3, c4, c5] W H s).pixelToWorld 0 0,
         (GeoTiffMatrix.setGeoTransform [c0, c1, c2, c3, c4, c5] W H s).pixelToWorld W 0,
         (GeoTiffMatrix.setGeoTransform [c0, c1, c2, c3, c4, c5] W H s).pixelToWorld W H,
         (GeoTiffMatrix.setGeoTransform [c0, c1, c2, c3, c4, c5] W H s).pixelToWorld 0 H] ∧
    (GeoTiffMatrix.setGeoTransform [c0, c1, c2, c3, c4, c5] W H s).getImageCorners
      = [⟨c0, c3⟩, ⟨c0 + W * c1, c3 + W * c4⟩,
         ⟨c0 + W * c1 + H * c2, c3 + W * c4 + H * c5⟩, ⟨c0 + H * c2, c3 + H * c5⟩] ∧
    (GeoTiffMatrix.setGeoTransform [100, 1, 0, 200, 0, -1] 10 5 s).getImageCorners
      = [⟨100, 200⟩, ⟨110, 200⟩, ⟨110, 195⟩, (⟨100, 195⟩ : QPointF K)] := by
  refine ⟨?_, ?_, ?_⟩
  · simp only [GeoTiffMatrix.getImageCorners, GeoTiffMatrix.setGeoTransform_width,
      GeoTiffMatrix.setGeoTransform_height]
  · simp only [GeoTiffMatrix.getImageCorners, GeoTiffMatrix.pixelToWorld,
      GeoTiffMatrix.setGeoTransform_width, GeoTiffMatrix.setGeoTransform_height,
      GeoTiffMatrix.setGeoTransform_geoTransform, vec6_zero, vec6_one, vec6_two, vec6_three,
      vec6_four, vec6_five]
    simp
  · simp only [GeoTiffMatrix.getImageCorners, GeoTiffMatrix.pixelToWorld,
      GeoTiffMatrix.setGeoTransform_width, GeoTiffMatrix.setGeoTransform_height,
      GeoTiffMatrix.setGeoTransform_geoTransform, vec6_zero, vec6_one, vec6_two, vec6_three,
      vec6_four, vec6_five]
    norm_num

theorem min4_le (a b c d : K) :
    min (min (min a b) c) d ≤ a ∧ min (min (min a b) c) d ≤ b ∧
    min (min (min a b) c) d ≤ c ∧ min (min (min a b) c) d ≤ d := by
  simp [min_le_iff]

theorem le_max4 (a b c d : K) :
    a ≤ max (max (max a b) c) d ∧ b ≤ max (max (max a b) c) d ∧
    c ≤ max (max (max a b) c) d ∧ d ≤ max (max (max a b) c) d := by
  simp [le_max_iff]

theorem min4_attained (a b c d : K) :
    min (min (min a b) c) d = a ∨ min (min (min a b) c) d = b ∨
    min (min (min a b) c) d = c ∨ min (min (min a b) c) d = d := by
  rcases min_choice (min (min a b) c) d with h1 | h1
  · rcases min_choice (min a b) c with h2 | h2
    · rcases min_choice a b with h3 | h3
      · exact Or.inl (by rw [h1, h2, h3])
      · exact Or.inr (Or.inl (by rw [h1, h2, h3]))
    · exact Or.inr (Or.inr (Or.inl (by rw [h1, h2])))
  · exact Or.inr (Or.inr (Or.inr h1))

theorem max4_attained (a b c d : K) :
    max (max (max a b) c) d = a ∨ max (max (max a b) c) d = b ∨
    max (max (max a b) c) d = c ∨ max (max (max a b) c) d = d := by
  rcases max_choice (max (max a b) c) d with h1 | h1
  · rcases max_choice (max a b) c with h2 | h2
    · rcases max_choice a b with h3 | h3
      · exact Or.inl (by rw [h1, h2, h3])
      · exact Or.inr (Or.inl (by rw [h1, h2, h3]))
    · exact Or.inr (Or.inr (Or.inl (by rw [h1, h2])))
  · exact Or.inr (Or.inr (Or.inr h1))

theorem GeoTiffMatrix.getBoundingBox_eq (s : GeoTiffMatrix K) :
    s.getBoundingBox
      = [min (min (min (s.pixelToWorld 0 0).x (s.pixelToWorld s.m_width 0).x)
            (s.pixelToWorld s.m_width s.m_height).x) (s.pixelToWorld 0 s.m_height).x,
         min (min (min (s.pixelToWorld 0 0).y (s.pixelToWorld s.m_width 0).y)
            (s.pixelToWorld s.m_width s.m_height).y) (s.pixelToWorld 0 s.m_height).y,
         max (max (max (s.pixelToWorld 0 0).x (s.pixelToWorld s.m_width 0).x)
            (s.pixelToWorld s.m_width s.m_height).x) (s.pixelToWorld 0 s.m_height).x,
         max (max (max (s.pixelToWorld 0 0).y (s.pixelToWorld s.m_width 0).y)
            (s.pixelToWorld s.m_width s.m_height).y) (s.pixelToWorld 0 s.m_height).y] := by
  simp only [GeoTiffMatrix.getBoundingBox, GeoTiffMatrix.getImageCorners, List.foldl,
    GeoTiffMatrix.Extremes.step, qMin_eq_min, qMax_eq_max]

/-- C7: in every state `getBoundingBox` returns `[minX, minY, maxX, maxY]` where every corner
of `getImageCorners` lies inside the box, each of the four bounds is attained by some corner,
`minX <= maxX` and `minY <= maxY`; for `c = [100,1,0,200,0,-1]`, `W = 10`, `H = 5` the result
is `(100, 195, 110, 200)`. -/
theorem matrix_bounding_box (s s0 : GeoTiffMatrix K) :
    (∃ minX minY maxX maxY : K,
      s.getBoundingBox = [minX, minY, maxX, maxY] ∧
      (∀ p ∈ s.getImageCorners, minX ≤ p.x ∧ p.x ≤ maxX ∧ minY ≤ p.y ∧ p.y ≤ maxY) ∧
      (∃ p ∈ s.getImageCorners, p.x = minX) ∧
      (∃ p ∈ s.getImageCorners, p.x = maxX) ∧
      (∃ p ∈ s.getImageCorners, p.y = minY) ∧
      (∃ p ∈ s.getImageCorners, p.y = maxY) ∧
      minX ≤ maxX ∧ minY ≤ maxY) ∧
    (GeoTiffMatrix.setGeoTransform [100, 1, 0, 200, 0, -1] 10 5 s0).getBoundingBox
      = [100, 195, 110, 200] := by
  constructor
  · refine ⟨_, _, _, _, GeoTiffMatrix.getBoundingBox_eq s, ?_⟩
    simp only [GeoTiffMatrix.getImageCorners]
    generalize s.pixelToWorld 0 0 = p0
    generalize s.pixelToWorld s.m_width 0 = p1
    generalize s.pixelToWorld s.m_width s.m_height = p2
    generalize s.pixelToWorld 0 s.m_height = p3
    obtain ⟨hx0, hx1, hx2, hx3⟩ := min4_le p0.x p1.x p2.x p3.x
    obtain ⟨hy0, hy1, hy2, hy3⟩ := min4_le p0.y p1.y p2.y p3.y
    obtain ⟨kx0, kx1, kx2, kx3⟩ := le_max4 p0.x p1.x p2.x p3.x
    obtain ⟨ky0, ky1, ky2, ky3⟩ := le_max4 p0.y p1.y p2.y p3.y
    refine ⟨?_, ?_, ?_, ?_, ?_, hx0.trans kx0, hy0.trans ky0⟩
    · intro p hp
      simp only [List.mem_cons, List.mem_singleton, List.not_mem_nil, or_false] at hp
      rcases hp with rfl | rfl | rfl | rfl
      · exact ⟨hx0, kx0, hy0, ky0⟩
      · exact ⟨hx1, kx1, hy1, ky1⟩
      · exact ⟨hx2, kx2, hy2, ky2⟩
      · exact ⟨hx3, kx3, hy3, ky3⟩
    · rcases min4_attained p0.x p1.x p2.x p3.x with h | h | h | h
      · exact ⟨p0, by simp, h.symm⟩
      · exact ⟨p1, by simp, h.symm⟩
      · exact ⟨p2, by simp, h.symm⟩
      · exact ⟨p3, by simp, h.symm⟩
    · rcases max4_attained p0.x p1.x p2.x p3.x with h | h | h | h
      · exact ⟨p0, by simp, h.symm⟩
      · exact ⟨p1, by simp, h.symm⟩
      · exact ⟨p2, by simp, h.symm⟩
      · exact ⟨p3, by simp, h.symm⟩
    · rcases min4_attained p0.y p1.y p2.y p3.y with h | h | h | h
      · exact ⟨p0, by simp, h.symm⟩
      · exact ⟨p1, by simp, h.symm⟩
      · exact ⟨p2, by simp, h.symm⟩
      · exact ⟨p3, by simp, h.symm⟩
    · rcases max4_attained p0.y p1.y p2.y p3.y with h | h | h | h
      · exact ⟨p0, by simp, h.symm⟩
      · exact ⟨p1, by simp, h.symm⟩
      · exact ⟨p2, by simp, h.symm⟩
      · exact ⟨p3, by simp, h.symm⟩
  · rw [GeoTiffMatrix.getBoundingBox_eq]
    simp only [GeoTiffMatrix.pixelToWorld,
      GeoTiffMatrix.setGeoTransform_width, GeoTiffMatrix.setGeoTransform_height,
      GeoTiffMatrix.setGeoTransform_geoTransform, vec6_zero, vec6_one, vec6_two, vec6_three,
      vec6_four, vec6_five]
    norm_num

/-- C8, as stated, fails: with the north-up coefficients `[100,1,0,200,0,-1]`, width `0` and
height `5`, the stored width is zero and `getBoundingBox` returns `(100, 195, 100, 200)`, not
`(0, 0, 0, 0)`. -/
theorem matrix_zero_width_box_counterexample :
    (GeoTiffMatrix.setGeoTransform [(100 : ℚ), 1, 0, 200, 0, -1] 0 5
        GeoTiffMatrix.new).m_width = 0 ∧
    (GeoTiffMatrix.setGeoTransform [(100 : ℚ), 1, 0, 200, 0, -1] 0 5
        GeoTiffMatrix.new).getBoundingBox = [100, 195, 100, 200] ∧
    (GeoTiffMatrix.setGeoTransform [(100 : ℚ), 1, 0, 200, 0, -1] 0 5
        GeoTiffMatrix.new).getBoundingBox ≠ [0, 0, 0, 0] := by
  have hbox : (GeoTiffMatrix.setGeoTransform [(100 : ℚ), 1, 0, 200, 0, -1] 0 5
      GeoTiffMatrix.new).getBoundingBox = [100, 195, 100, 200] := by
    rw [GeoTiffMatrix.getBoundingBox_eq]
    simp only [GeoTiffMatrix.pixelToWorld,
      GeoTiffMatrix.setGeoTransform_width, GeoTiffMatrix.setGeoTransform_height,
      GeoTiffMatrix.setGeoTransform_geoTransform, vec6_zero, vec6_one, vec6_two, vec6_three,
      vec6_four, vec6_five]
    norm_num
  refine ⟨GeoTiffMatrix.setGeoTransform_width _ _ _ _ _ _ _ _ _, hbox, ?_⟩
  rw [hbox]
  simp

/-- C8, amended: `getBoundingBox` is always the min/max reduction of the four corners. With
stored width `0` the corners collapse to `pixelToWorld(0,0)` and `pixelToWorld(0,H)` and the box
is spanned by these two points; with stored height `0` it is spanned by `pixelToWorld(0,0)` and
`pixelToWorld(W,0)`; with both `0` it is `(c0, c3, c0, c3)`. In the freshly constructed state it
is `(0, 0, 0, 0)`. -/
theorem matrix_degenerate_box (s : GeoTiffMatrix K) :
    (s.m_width = 0 → s.getBoundingBox
      = [min (s.pixelToWorld 0 0).x (s.pixelToWorld 0 s.m_height).x,
         min (s.pixelToWorld 0 0).y (s.pixelToWorld 0 s.m_height).y,
         max (s.pixelToWorld 0 0).x (s.pixelToWorld 0 s.m_height).x,
         max (s.pixelToWorld 0 0).y (s.pixelToWorld 0 s.m_height).y]) ∧
    (s.m_height = 0 → s.getBoundingBox
      = [min (s.pixelToWorld 0 0).x (s.pixelToWorld s.m_width 0).x,
         min (s.pixelToWorld 0 0).y (s.pixelToWorld s.m_width 0).y,
         max (s.pixelToWorld 0 0).x (s.pixelToWorld s.m_width 0).x,
         max (s.pixelToWorld 0 0).y (s.pixelToWorld s.m_width 0).y]) ∧
    (s.m_width = 0 → s.m_height = 0 → s.getBoundingBox
      = [s.m_geoTransform 0, s.m_geoTransform 3, s.m_geoTransform 0, s.m_geoTransform 3]) ∧
    (GeoTiffMatrix.new : GeoTiffMatrix K).getBoundingBox = [0, 0, 0, 0] := by
  refine ⟨?_, ?_, ?_, ?_⟩
  · intro hw
    rw [GeoTiffMatrix.getBoundingBox_eq, hw]
    simp
  · intro hh
    rw [GeoTiffMatrix.getBoundingBox_eq, hh]
    simp [min_assoc, max_assoc]
  · intro hw hh
    rw [GeoTiffMatrix.getBoundingBox_eq, hw, hh]
    simp [GeoTiffMatrix.pixelToWorld]
  · rw [GeoTiffMatrix.getBoundingBox_eq]
    simp [GeoTiffMatrix.pixelToWorld, GeoTiffMatrix.new]

/-- Witness of C8, amended: width `0` and height `0` with the origin `(100, 200)`, at
`K := ℚ`. -/
theorem matrix_degenerate_box_witness :
    (GeoTiffMatrix.setGeoTransform [(100 : ℚ), 1, 0, 200, 0, -1] 0 0
        GeoTiffMatrix.new).getBoundingBox
      = [(GeoTiffMatrix.setGeoTransform [(100 : ℚ), 1, 0, 200, 0, -1] 0 0
            GeoTiffMatrix.new).m_geoTransform 0,
         (GeoTiffMatrix.setGeoTransform [(100 : ℚ), 1, 0, 200, 0, -1] 0 0
            GeoTiffMatrix.new).m_geoTransform 3,
         (GeoTiffMatrix.setGeoTransform [(100 : ℚ), 1, 0, 200, 0, -1] 0 0
            GeoTiffMatrix.new).m_geoTransform 0,
         (GeoTiffMatrix.setGeoTransform [(100 : ℚ), 1, 0, 200, 0, -1] 0 0
            GeoTiffMatrix.new).m_geoTransform 3] :=
  (matrix_degenerate_box (GeoTiffMatrix.setGeoTransform [(100 : ℚ), 1, 0, 200, 0, -1] 0 0
      GeoTiffMatrix.new)).2.2.1
    (GeoTiffMatrix.setGeoTransform_width _ _ _ _ _ _ _ _ _)
    (GeoTiffMatrix.setGeoTransform_height _ _ _ _ _ _ _ _ _)

/-! ## The transformation matrix of `GeoTiffMatrix` -/

theorem GeoTiffMatrix.updateMatrices_pixelToWorldMatrix_of_singular (s : GeoTiffMatrix K)
    (h : |s.m_geoTransform 1 * s.m_geoTransform 5 - s.m_geoTransform 2 * s.m_geoTransform 4|
      < singularEps) :
    (GeoTiffMatrix.updateMatrices s).m_pixelToWorldMatrix = s.m_pixelToWorldMatrix := by
  unfold GeoTiffMatrix.updateMatrices
  dsimp only
  rw [if_pos (by rw [qAbs_eq_abs]; exact h)]

theorem GeoTiffMatrix.updateMatrices_pixelToWorldMatrix_of_regular (s : GeoTiffMatrix K)
    (h : singularEps
      ≤ |s.m_geoTransform 1 * s.m_geoTransform 5 - s.m_geoTransform 2 * s.m_geoTransform 4|) :
    (GeoTiffMatrix.updateMatrices s).m_pixelToWorldMatrix
      = ![![s.m_geoTransform 1, s.m_geoTransform 2, 0, s.m_geoTransform 0],
          ![s.m_geoTransform 4, s.m_geoTransform 5, 0, s.m_geoTransform 3],
          ![0, 0, 1, 0],
          ![0, 0, 0, 1]] := by
  unfold GeoTiffMatrix.updateMatrices
  dsimp only
  rw [if_neg (by rw [qAbs_eq_abs]; exact not_lt.mpr h)]
  funext i j
  fin_cases i <;> fin_cases j <;> rfl

/-- The forward matrix is left untouched by a `setGeoTransform` call with singular
coefficients: `updateMatrices` returns before it is rebuilt. -/
theorem GeoTiffMatrix.getTransformationMatrix_of_singular (s : GeoTiffMatrix K)
    (c0 c1 c2 c3 c4 c5 : K) (W H : Int) (h : |c1 * c5 - c2 * c4| < singularEps) :
    (GeoTiffMatrix.setGeoTransform [c0, c1, c2, c3, c4, c5] W H s).getTransformationMatrix
      = s.getTransformationMatrix := by
  unfold GeoTiffMatrix.setGeoTransform GeoTiffMatrix.getTransformationMatrix
  rw [if_neg (by simp), GeoTiffMatrix.updateMatrices_pixelToWorldMatrix_of_singular]
  exact h

/-- The forward matrix after a `setGeoTransform` call with non-singular coefficients has the
rows `(c1, c2, 0, c0)`, `(c4, c5, 0, c3)`, `(0, 0, 1, 0)`, `(0, 0, 0, 1)` and maps
`(px, py, 0, 1)` to the point of `pixelToWorld(px, py)`. -/
theorem GeoTiffMatrix.getTransformationMatrix_of_regular (s : GeoTiffMatrix K)
    (c0 c1 c2 c3 c4 c5 : K) (W H px py : Int) (h : singularEps ≤ |c1 * c5 - c2 * c4|) :
    (GeoTiffMatrix.setGeoTransform [c0, c1, c2, c3, c4, c5] W H s).getTransformationMatrix
      = ![![c1, c2, 0, c0], ![c4, c5, 0, c3], ![0, 0, 1, 0], ![0, 0, 0, 1]] ∧
    QMatrix4x4.mulVec
        (GeoTiffMatrix.setGeoTransform [c0, c1, c2, c3, c4, c5] W H s).getTransformationMatrix
        ![(px : K), (py : K), 0, 1] 0
      = ((GeoTiffMatrix.setGeoTransform [c0, c1, c2, c3, c4, c5] W H s).pixelToWorld px py).x ∧
    QMatrix4x4.mulVec
        (GeoTiffMatrix.setGeoTransform [c0, c1, c2, c3, c4, c5] W H s).getTransformationMatrix
        ![(px : K), (py : K), 0, 1] 1
      = ((GeoTiffMatrix.setGeoTransform [c0, c1, c2, c3, c4, c5] W H s).pixelToWorld px py).y := by
  have hm : (GeoTiffMatrix.setGeoTransform [c0, c1, c2, c3, c4, c5] W H
      s).getTransformationMatrix
      = ![![c1, c2, 0, c0], ![c4, c5, 0, c3], ![0, 0, 1, 0], ![0, 0, 0, 1]] := by
    unfold GeoTiffMatrix.setGeoTransform GeoTiffMatrix.getTransformationMatrix
    rw [if_neg (by simp), GeoTiffMatrix.updateMatrices_pixelToWorldMatrix_of_regular]
    · rfl
    · exact h
  refine ⟨hm, ?_, ?_⟩
  · rw [hm]
    simp only [GeoTiffMatrix.pixelToWorld, GeoTiffMatrix.setGeoTransform_geoTransform,
      vec6_zero, vec6_one, vec6_two, vec6_three, vec6_four, vec6_five]
    simp [QMatrix4x4.mulVec]
    ring
  · rw [hm]
    simp only [GeoTiffMatrix.pixelToWorld, GeoTiffMatrix.setGeoTransform_geoTransform,
      vec6_zero, vec6_one, vec6_two, vec6_three, vec6_four, vec6_five]
    simp [QMatrix4x4.mulVec]
    ring

/-- C9 fails on the code for singular coefficients: on a freshly constructed object,
`setGeoTransform([100, 1e-6, 0, 200, 0, -1e-6], 10, 5)` (determinant `-1e-12`) leaves
`getTransformationMatrix` at the identity, whose first row is `(1, 0, 0, 0)` and not
`(1e-6, 0, 0, 100)`; applied to `(1, 1, 0, 1)` it gives `(1, 1)`, while `pixelToWorld(1, 1)` is
`(100.000001, 199.999999)`. -/
theorem matrix_transformation_matrix_stale :
    (GeoTiffMatrix.setGeoTransform [(100 : ℚ), 1 / 1000000, 0, 200, 0, -1 / 1000000] 10 5
        GeoTiffMatrix.new).getTransformationMatrix = QMatrix4x4.identity ∧
    (GeoTiffMatrix.setGeoTransform [(100 : ℚ), 1 / 1000000, 0, 200, 0, -1 / 1000000] 10 5
        GeoTiffMatrix.new).getTransformationMatrix 0 0 = 1 ∧
    (GeoTiffMatrix.setGeoTransform [(100 : ℚ), 1 / 1000000, 0, 200, 0, -1 / 1000000] 10 5
        GeoTiffMatrix.new).getTransformationMatrix 0 3 = 0 ∧
    QMatrix4x4.mulVec
        (GeoTiffMatrix.setGeoTransform [(100 : ℚ), 1 / 1000000, 0, 200, 0, -1 / 1000000] 10 5
          GeoTiffMatrix.new).getTransformationMatrix ![1, 1, 0, 1] 0 = 1 ∧
    QMatrix4x4.mulVec
        (GeoTiffMatrix.setGeoTransform [(100 : ℚ), 1 / 1000000, 0, 200, 0, -1 / 1000000] 10 5
          GeoTiffMatrix.new).getTransformationMatrix ![1, 1, 0, 1] 1 = 1 ∧
    (GeoTiffMatrix.setGeoTransform [(100 : ℚ), 1 / 1000000, 0, 200, 0, -1 / 1000000] 10 5
        GeoTiffMatrix.new).pixelToWorld 1 1 = ⟨100 + 1 / 1000000, 200 - 1 / 1000000⟩ := by
  have hm : (GeoTiffMatrix.setGeoTransform [(100 : ℚ), 1 / 1000000, 0, 200, 0, -1 / 1000000]
      10 5 GeoTiffMatrix.new).getTransformationMatrix = QMatrix4x4.identity :=
    GeoTiffMatrix.getTransformationMatrix_of_singular GeoTiffMatrix.new 100 (1 / 1000000) 0 200 0
      (-1 / 1000000) 10 5 (by norm_num [singularEps, abs_of_neg])
  refine ⟨hm, ?_, ?_, ?_, ?_, ?_⟩
  · rw [hm]; rfl
  · rw [hm]; rfl
  · rw [hm]; simp [QMatrix4x4.mulVec, QMatrix4x4.identity]
  · rw [hm]; simp [QMatrix4x4.mulVec, QMatrix4x4.identity]
  · simp only [GeoTiffMatrix.pixelToWorld, GeoTiffMatrix.setGeoTransform_geoTransform,
      vec6_zero, vec6_one, vec6_two, vec6_three, vec6_four, vec6_five]
    norm_num

/-! ## The identity transform -/

/-- C10: with the coefficients `[0,1,0,0,0,1]` set by `GeoTiffMatrix.setGeoTransform`, or by
`GeoTransformHandler.updateTransformFromGDAL` with origin `(0,0)`, pixel size `(1,1)` and
rotations `(0,0)`, `pixelToWorld(px, py)` is `(px, py)` for all integer pixels and
`worldToPixel(x, y)` is `(x, y)` for all world points. -/
theorem identity_transform (sm : GeoTiffMatrix K) (sh : GeoTransformHandler K)
    (W H W' H' px py : Int) (x y : K) :
    (GeoTiffMatrix.setGeoTransform [0, 1, 0, 0, 0, 1] W H sm).pixelToWorld px py
      = ⟨(px : K), (py : K)⟩ ∧
    (GeoTiffMatrix.setGeoTransform [0, 1, 0, 0, 0, 1] W H sm).worldToPixel x y = ⟨x, y⟩ ∧
    ((GeoTransformHandler.updateTransformFromGDAL 0 0 1 1 0 0 W' H' sh).pixelToWorld
      px py).longitude = (px : K) ∧
    ((GeoTransformHandler.updateTransformFromGDAL 0 0 1 1 0 0 W' H' sh).pixelToWorld
      px py).latitude = (py : K) ∧
    (GeoTransformHandler.updateTransformFromGDAL 0 0 1 1 0 0 W' H' sh).worldToPixel x y
      = ⟨x, y⟩ := by
  have hreg : (singularEps : K) ≤ |(1 : K) * 1 - 0 * 0| := by
    norm_num [singularEps]
  have hinv := GeoTransformHandler.updateTransformFromGDAL_inverse_of_regular sh 0 0 1 1 0 0
    W' H' hreg
  refine ⟨?_, ?_, ?_, ?_, ?_⟩
  · simp only [GeoTiffMatrix.pixelToWorld, GeoTiffMatrix.setGeoTransform_geoTransform,
      vec6_zero, vec6_one, vec6_two, vec6_three, vec6_four, vec6_five]
    simp
  · simp only [GeoTiffMatrix.worldToPixel, GeoTiffMatrix.setGeoTransform_geoTransform,
      vec6_zero, vec6_one, vec6_two, vec6_three, vec6_four, vec6_five]
    rw [if_neg (by rw [qAbs_eq_abs]; exact not_lt.mpr hreg)]
    simp
  · simp only [GeoTransformHandler.pixelToWorld,
      GeoTransformHandler.updateTransformFromGDAL_geoTransform,
      vec6_zero, vec6_one, vec6_two, vec6_three, vec6_four, vec6_five]
    simp
  · simp only [GeoTransformHandler.pixelToWorld,
      GeoTransformHandler.updateTransformFromGDAL_geoTransform,
      vec6_zero, vec6_one, vec6_two, vec6_three, vec6_four, vec6_five]
    simp
  · simp only [GeoTransformHandler.worldToPixel, hinv,
      vec6_zero, vec6_one, vec6_two, vec6_three, vec6_four, vec6_five]
    simp

/-! ## The sentinel and the two inverse formulations -/

theorem GeoTiffMatrix.updateMatrices_worldToPixelMatrix_of_regular (s : GeoTiffMatrix K)
    (h : singularEps
      ≤ |s.m_geoTransform 1 * s.m_geoTransform 5 - s.m_geoTransform 2 * s.m_geoTransform 4|) :
    (GeoTiffMatrix.updateMatrices s).m_worldToPixelMatrix
      = ![![s.m_geoTransform 5 * (1 / (s.m_geoTransform 1 * s.m_geoTransform 5
              - s.m_geoTransform 2 * s.m_geoTransform 4)),
            -s.m_geoTransform 2 * (1 / (s.m_geoTransform 1 * s.m_geoTransform 5
              - s.m_geoTransform 2 * s.m_geoTransform 4)),
            0,
            (s.m_geoTransform 2 * s.m_geoTransform 3 - s.m_geoTransform 0 * s.m_geoTransform 5)
              * (1 / (s.m_geoTransform 1 * s.m_geoTransform 5
                - s.m_geoTransform 2 * s.m_geoTransform 4))],
          ![-s.m_geoTransform 4 * (1 / (s.m_geoTransform 1 * s.m_geoTransform 5
              - s.m_geoTransform 2 * s.m_geoTransform 4)),
            s.m_geoTransform 1 * (1 / (s.m_geoTransform 1 * s.m_geoTransform 5
              - s.m_geoTransform 2 * s.m_geoTransform 4)),
            0,
            (s.m_geoTransform 0 * s.m_geoTransform 4 - s.m_geoTransform 1 * s.m_geoTransform 3)
              * (1 / (s.m_geoTransform 1 * s.m_geoTransform 5
                - s.m_geoTransform 2 * s.m_geoTransform 4))],
          ![0, 0, 1, 0],
          ![0, 0, 0, 1]] := by
  unfold GeoTiffMatrix.updateMatrices
  dsimp only
  rw [if_neg (by rw [qAbs_eq_abs]; exact not_lt.mpr h)]
  funext i j
  fin_cases i <;> fin_cases j <;> rfl

theorem GeoTiffMatrix.setGeoTransform_worldToPixelMatrix_of_regular (s : GeoTiffMatrix K)
    (c0 c1 c2 c3 c4 c5 : K) (W H : Int) (h : singularEps ≤ |c1 * c5 - c2 * c4|) :
    (GeoTiffMatrix.setGeoTransform [c0, c1, c2, c3, c4, c5] W H s).m_worldToPixelMatrix
      = ![![c5 * (1 / (c1 * c5 - c2 * c4)), -c2 * (1 / (c1 * c5 - c2 * c4)), 0,
            (c2 * c3 - c0 * c5) * (1 / (c1 * c5 - c2 * c4))],
          ![-c4 * (1 / (c1 * c5 - c2 * c4)), c1 * (1 / (c1 * c5 - c2 * c4)), 0,
            (c0 * c4 - c1 * c3) * (1 / (c1 * c5 - c2 * c4))],
          ![0, 0, 1, 0],
          ![0, 0, 0, 1]] := by
  unfold GeoTiffMatrix.setGeoTransform
  rw [if_neg (by simp), GeoTiffMatrix.updateMatrices_worldToPixelMatrix_of_regular]
  · rfl
  · exact h

/-- For non-singular coefficients `GeoTiffMatrix.worldToPixel` is the exact inverse formula;
its value is `(0, 0)` exactly at the world point `(c0, c3)`. -/
theorem GeoTiffMatrix.worldToPixel_eq_zero_iff (s : GeoTiffMatrix K) (c0 c1 c2 c3 c4 c5 : K)
    (W H : Int) (x y : K) (hdet : singularEps ≤ |c1 * c5 - c2 * c4|) :
    (GeoTiffMatrix.setGeoTransform [c0, c1, c2, c3, c4, c5] W H s).worldToPixel x y = ⟨0, 0⟩
      ↔ x = c0 ∧ y = c3 := by
  have hne : c1 * c5 - c2 * c4 ≠ 0 := det_ne_zero_of_eps_le hdet
  simp only [GeoTiffMatrix.worldToPixel, GeoTiffMatrix.setGeoTransform_geoTransform,
    vec6_zero, vec6_one, vec6_two, vec6_three, vec6_four, vec6_five]
  rw [if_neg (by rw [qAbs_eq_abs]; exact not_lt.mpr hdet), QPointF.mk.injEq]
  constructor
  · rintro ⟨h1, h2⟩
    have hD : (c1 * c5 - c2 * c4) * (1 / (c1 * c5 - c2 * c4)) = 1 := mul_one_div_cancel hne
    have hx : x - c0 = 0 := by linear_combination c1 * h1 + c2 * h2 - (x - c0) * hD
    have hy : y - c3 = 0 := by linear_combination c4 * h1 + c5 * h2 - (y - c3) * hD
    exact ⟨sub_eq_zero.mp hx, sub_eq_zero.mp hy⟩
  · rintro ⟨rfl, rfl⟩
    simp

/-- C11, as stated, fails: the north-up transform `[100,1,0,200,0,-1]` has `|det| = 1 >= 1e-10`
and `worldToPixel(100, 200)` is `(0, 0)`, the same value the singular transform `[0,1,1,0,2,2]`
returns at that point. -/
theorem matrix_sentinel_counterexample :
    (singularEps : ℚ) ≤ |(1 : ℚ) * (-1) - 0 * 0| ∧
    (GeoTiffMatrix.setGeoTransform [(100 : ℚ), 1, 0, 200, 0, -1] 10 5
        GeoTiffMatrix.new).worldToPixel 100 200 = ⟨0, 0⟩ ∧
    (GeoTiffMatrix.setGeoTransform [(0 : ℚ), 1, 1, 0, 2, 2] 10 5
        GeoTiffMatrix.new).worldToPixel 100 200 = ⟨0, 0⟩ := by
  have hreg : (singularEps : ℚ) ≤ |(1 : ℚ) * (-1) - 0 * 0| := by
    norm_num [singularEps, abs_of_neg]
  refine ⟨hreg, ?_, ?_⟩
  · exact (GeoTiffMatrix.worldToPixel_eq_zero_iff GeoTiffMatrix.new 100 1 0 200 0 (-1) 10 5
      100 200 hreg).mpr ⟨rfl, rfl⟩
  · simp only [GeoTiffMatrix.worldToPixel, GeoTiffMatrix.setGeoTransform_geoTransform,
      vec6_zero, vec6_one, vec6_two, vec6_three, vec6_four, vec6_five]
    rw [if_pos (by rw [qAbs_eq_abs]; norm_num [singularEps])]

/-- C11, amended: for every coefficient set with `|c1*c5 - c2*c4| >= 1e-10`, `worldToPixel`
returns `(0, 0)`, the value it returns for singular transforms, at exactly one world point, the
origin `(c0, c3)`; at every other world point its result differs from `(0, 0)`. -/
theorem matrix_sentinel_only_at_origin (s : GeoTiffMatrix K) (c0 c1 c2 c3 c4 c5 : K)
    (W H : Int) (x y : K) (hdet : singularEps ≤ |c1 * c5 - c2 * c4|) :
    (GeoTiffMatrix.setGeoTransform [c0, c1, c2, c3, c4, c5] W H s).worldToPixel c0 c3
      = ⟨0, 0⟩ ∧
    ((GeoTiffMatrix.setGeoTransform [c0, c1, c2, c3, c4, c5] W H s).worldToPixel x y = ⟨0, 0⟩
      ↔ x = c0 ∧ y = c3) :=
  ⟨(GeoTiffMatrix.worldToPixel_eq_zero_iff s c0 c1 c2 c3 c4 c5 W H c0 c3 hdet).mpr ⟨rfl, rfl⟩,
   GeoTiffMatrix.worldToPixel_eq_zero_iff s c0 c1 c2 c3 c4 c5 W H x y hdet⟩

/-- Witness of C11, amended: the rotated transform `[100,2,1,200,3,-1]` at `K := ℚ`, whose
result at `(107, 211)` is not the sentinel. -/
theorem matrix_sentinel_only_at_origin_witness :
    (GeoTiffMatrix.setGeoTransform [(100 : ℚ), 2, 1, 200, 3, -1] 10 5
        GeoTiffMatrix.new).worldToPixel 100 200 = ⟨0, 0⟩ ∧
    (GeoTiffMatrix.setGeoTransform [(100 : ℚ), 2, 1, 200, 3, -1] 10 5
        GeoTiffMatrix.new).worldToPixel 107 211 ≠ ⟨0, 0⟩ :=
  ⟨(matrix_sentinel_only_at_origin GeoTiffMatrix.new 100 2 1 200 3 (-1) 10 5 107 211
      (by norm_num [singularEps, abs_of_neg])).1,
   fun h => absurd ((matrix_sentinel_only_at_origin GeoTiffMatrix.new 100 2 1 200 3 (-1) 10 5
      107 211 (by norm_num [singularEps, abs_of_neg])).2.mp h).1 (by norm_num)⟩

/-- C12: for every coefficient set with `|c1*c5 - c2*c4| >= 1e-10`, the six world-to-pixel
entries `a, b, c, d, e, f` that `GeoTiffMatrix::updateMatrices` stores at `(0,0)`, `(0,1)`,
`(0,3)`, `(1,0)`, `(1,1)`, `(1,3)` equal the coefficients `inv0 .. inv5` computed by
`GeoTransformHandler::calculateInverseTransform` for the same coefficients. -/
theorem inverse_formulations_agree (sm : GeoTiffMatrix K) (sh : GeoTransformHandler K)
    (c0 c1 c2 c3 c4 c5 : K) (W H W' H' : Int) (hdet : singularEps ≤ |c1 * c5 - c2 * c4|) :
    (GeoTiffMatrix.setGeoTransform [c0, c1, c2, c3, c4, c5] W H sm).m_worldToPixelMatrix 0 0
      = (GeoTransformHandler.updateTransformFromGDAL c0 c3 c1 c5 c2 c4 W' H'
          sh).m_inverseTransform 0 ∧
    (GeoTiffMatrix.setGeoTransform [c0, c1, c2, c3, c4, c5] W H sm).m_worldToPixelMatrix 0 1
      = (GeoTransformHandler.updateTransformFromGDAL c0 c3 c1 c5 c2 c4 W' H'
          sh).m_inverseTransform 1 ∧
    (GeoTiffMatrix.setGeoTransform [c0, c1, c2, c3, c4, c5] W H sm).m_worldToPixelMatrix 0 3
      = (GeoTransformHandler.updateTransformFromGDAL c0 c3 c1 c5 c2 c4 W' H'
          sh).m_inverseTransform 2 ∧
    (GeoTiffMatrix.setGeoTransform [c0, c1, c2, c3, c4, c5] W H sm).m_worldToPixelMatrix 1 0
      = (GeoTransformHandler.updateTransformFromGDAL c0 c3 c1 c5 c2 c4 W' H'
          sh).m_inverseTransform 3 ∧
    (GeoTiffMatrix.setGeoTransform [c0, c1, c2, c3, c4, c5] W H sm).m_worldToPixelMatrix 1 1
      = (GeoTransformHandler.updateTransformFromGDAL c0 c3 c1 c5 c2 c4 W' H'
          sh).m_inverseTransform 4 ∧
    (GeoTiffMatrix.setGeoTransform [c0, c1, c2, c3, c4, c5] W H sm).m_worldToPixelMatrix 1 3
      = (GeoTransformHandler.updateTransformFromGDAL c0 c3 c1 c5 c2 c4 W' H'
          sh).m_inverseTransform 5 := by
  rw [GeoTiffMatrix.setGeoTransform_worldToPixelMatrix_of_regular sm c0 c1 c2 c3 c4 c5 W H hdet,
    GeoTransformHandler.updateTransformFromGDAL_inverse_of_regular sh c0 c3 c1 c5 c2 c4 W' H'
      hdet]
  simp only [vec6_zero, vec6_one, vec6_two, vec6_three, vec6_four, vec6_five]
  refine ⟨rfl, rfl, ?_, rfl, rfl, ?_⟩
  · show (c2 * c3 - c0 * c5) * (1 / (c1 * c5 - c2 * c4)) = _
    ring
  · show (c0 * c4 - c1 * c3) * (1 / (c1 * c5 - c2 * c4)) = _
    ring

/-- Witness of C12: the rotated transform `[100,2,1,200,3,-1]` at `K := ℚ`; the translation
entry `c` of the matrix equals `inv2` of the handler. -/
theorem inverse_formulations_agree_witness :
    (GeoTiffMatrix.setGeoTransform [(100 : ℚ), 2, 1, 200, 3, -1] 10 5
        GeoTiffMatrix.new).m_worldToPixelMatrix 0 3
      = (GeoTransformHandler.updateTransformFromGDAL (100 : ℚ) 200 2 (-1) 1 3 10 5
          GeoTransformHandler.new).m_inverseTransform 2 :=
  (inverse_formulations_agree GeoTiffMatrix.new GeoTransformHandler.new 100 2 1 200 3 (-1)
    10 5 10 5 (by norm_num [singularEps, abs_of_neg])).2.2.1

/-- C13: for every coefficient set with `|c1*c5 - c2*c4| >= 1e-10` and every world point,
`GeoTiffMatrix.worldToPixel` after `setGeoTransform` equals `GeoTransformHandler.worldToPixel`
after `updateTransformFromGDAL` with the same coefficients. -/
theorem world_to_pixel_agree (sm : GeoTiffMatrix K) (sh : GeoTransformHandler K)
    (c0 c1 c2 c3 c4 c5 : K) (W H W' H' : Int) (x y : K)
    (hdet : singularEps ≤ |c1 * c5 - c2 * c4|) :
    (GeoTiffMatrix.setGeoTransform [c0, c1, c2, c3, c4, c5] W H sm).worldToPixel x y
      = (GeoTransformHandler.updateTransformFromGDAL c0 c3 c1 c5 c2 c4 W' H'
          sh).worldToPixel x y := by
  have hinv := GeoTransformHandler.updateTransformFromGDAL_inverse_of_regular sh c0 c3 c1 c5
    c2 c4 W' H' hdet
  simp only [GeoTiffMatrix.worldToPixel, GeoTransformHandler.worldToPixel,
    GeoTiffMatrix.setGeoTransform_geoTransform, hinv,
    vec6_zero, vec6_one, vec6_two, vec6_three, vec6_four, vec6_five]
  rw [if_neg (by rw [qAbs_eq_abs]; exact not_lt.mpr hdet), QPointF.mk.injEq]
  constructor <;> ring

/-- Witness of C13: the rotated transform `[100,2,1,200,3,-1]` at the world point
`(107, 211)`, at `K := ℚ`. -/
theorem world_to_pixel_agree_witness :
    (GeoTiffMatrix.setGeoTransform [(100 : ℚ), 2, 1, 200, 3, -1] 10 5
        GeoTiffMatrix.new).worldToPixel 107 211
      = (GeoTransformHandler.updateTransformFromGDAL (100 : ℚ) 200 2 (-1) 1 3 10 5
          GeoTransformHandler.new).worldToPixel 107 211 :=
  world_to_pixel_agree GeoTiffMatrix.new GeoTransformHandler.new 100 2 1 200 3 (-1) 10 5 10 5
    107 211 (by norm_num [singularEps, abs_of_neg])

/-! ## Frame of the `GeoTransformHandler` updates -/

theorem GeoTransformHandler.calculateInverseTransform_imageWidth (s : GeoTransformHandler K) :
    (GeoTransformHandler.calculateInverseTransform s).m_imageWidth = s.m_imageWidth := by
  unfold GeoTransformHandler.calculateInverseTransform
  dsimp only
  split_ifs <;> rfl

theorem GeoTransformHandler.calculateInverseTransform_imageHeight (s : GeoTransformHandler K) :
    (GeoTransformHandler.calculateInverseTransform s).m_imageHeight = s.m_imageHeight := by
  unfold GeoTransformHandler.calculateInverseTransform
  dsimp only
  split_ifs <;> rfl

theorem GeoTransformHandler.calculateInverseTransform_imageCorners (s : GeoTransformHandler K) :
    (GeoTransformHandler.calculateInverseTransform s).m_imageCorners = s.m_imageCorners := by
  unfold GeoTransformHandler.calculateInverseTransform
  dsimp only
  split_ifs <;> rfl

theorem GeoTransformHandler.updateTransformFromGDAL_imageCorners (s : GeoTransformHandler K)
    (originX originY pixelWidth pixelHeight rotationX rotationY : K) (W H : Int) :
    (GeoTransformHandler.updateTransformFromGDAL originX originY pixelWidth pixelHeight rotationX
      rotationY W H s).getImageCornerCoordinates
      = [⟨originX, originY⟩,
         ⟨originX + W * pixelWidth, originY + W * rotationY⟩,
         ⟨originX + W * pixelWidth + H * rotationX, originY + W * rotationY + H * pixelHeight⟩,
         ⟨originX + H * rotationX, originY + H * pixelHeight⟩] := by
  unfold GeoTransformHandler.getImageCornerCoordinates
    GeoTransformHandler.updateTransformFromGDAL
  dsimp only
  rw [GeoTransformHandler.calculateInverseTransform_imageCorners]
  have hg : (Function.update (Function.update (Function.update (Function.update
      (Function.update (Function.update s.m_geoTransform 0 originX) 1 pixelWidth) 2 rotationX)
      3 originY) 4 rotationY) 5 pixelHeight)
      = ![originX, pixelWidth, rotationX, originY, rotationY, pixelHeight] := by
    funext i
    fin_cases i <;> rfl
  simp only [GeoTransformHandler.pixelToWorld, hg, vec6_zero, vec6_one, vec6_two, vec6_three,
    vec6_four, vec6_five]
  simp

theorem GeoTransformHandler.updateTransformFromGDAL_imageWidth (s : GeoTransformHandler K)
    (originX originY pixelWidth pixelHeight rotationX rotationY : K) (W H : Int) :
    (GeoTransformHandler.updateTransformFromGDAL originX originY pixelWidth pixelHeight rotationX
      rotationY W H s).m_imageWidth = W := by
  unfold GeoTransformHandler.updateTransformFromGDAL
  dsimp only
  rw [GeoTransformHandler.calculateInverseTransform_imageWidth]

theorem GeoTransformHandler.updateTransformFromGDAL_imageHeight (s : GeoTransformHandler K)
    (originX originY pixelWidth pixelHeight rotationX rotationY : K) (W H : Int) :
    (GeoTransformHandler.updateTransformFromGDAL originX originY pixelWidth pixelHeight rotationX
      rotationY W H s).m_imageHeight = H := by
  unfold GeoTransformHandler.updateTransformFromGDAL
  dsimp only
  rw [GeoTransformHandler.calculateInverseTransform_imageHeight]

theorem GeoTransformHandler.updateTransformFromGDAL_inverse_of_singular
    (s : GeoTransformHandler K)
    (originX originY pixelWidth pixelHeight rotationX rotationY : K) (W H : Int)
    (hsing : |pixelWidth * pixelHeight - rotationX * rotationY| < singularEps) :
    (GeoTransformHandler.updateTransformFromGDAL originX originY pixelWidth pixelHeight rotationX
      rotationY W H s).m_inverseTransform = s.m_inverseTransform := by
  have h := GeoTransformHandler.apply_inverse_of_singular s
    (.gdal originX originY pixelWidth pixelHeight rotationX rotationY W H)
    (by
      simp only [GeoTransformHandler.Update.apply,
        GeoTransformHandler.det_updateTransformFromGDAL]
      exact hsing)
  exact h

theorem GeoTransformHandler.run_inverse_of_singular (us : List (GeoTransformHandler.Update K))
    (hus : ∀ u ∈ us, u.singularGDAL) (s : GeoTransformHandler K) :
    (GeoTransformHandler.Update.run us s).m_inverseTransform = s.m_inverseTransform := by
  induction us generalizing s with
  | nil => rfl
  | cons u rest ih =>
    have hu : u.singularGDAL := hus u (List.mem_cons_self u rest)
    have hrest : ∀ v ∈ rest, v.singularGDAL := fun v hv => hus v (List.mem_cons_of_mem u hv)
    show (GeoTransformHandler.Update.run rest (u.apply s)).m_inverseTransform = _
    rw [ih hrest (u.apply s)]
    cases u with
    | corners a b c d e f g i w t =>
      exact absurd hu (by simp [GeoTransformHandler.Update.singularGDAL])
    | gdal a b c d e f w t =>
      exact GeoTransformHandler.updateTransformFromGDAL_inverse_of_singular s a b c d e f w t hu

/-- C14: an `updateTransformFromGDAL` call whose coefficients satisfy
`|c1*c5 - c2*c4| < 1e-10` leaves all six entries of the cached inverse unchanged and replaces the
forward coefficients, the image dimensions and the stored corners by the new values; hence
`worldToPixel` returns what it returned before the call, and after any run `us` of such calls it
still returns the results of the state `s` the run started from (the last non-singular
transform), or `(0, 0)` everywhere when the run starts at the constructed object. -/
theorem handler_singular_gdal_frame (s : GeoTransformHandler K)
    (originX originY pixelWidth pixelHeight rotationX rotationY : K) (W H : Int) (x y : K)
    (us : List (GeoTransformHandler.Update K))
    (hsing : |pixelWidth * pixelHeight - rotationX * rotationY| < singularEps)
    (hus : ∀ u ∈ us, u.singularGDAL) :
    (GeoTransformHandler.updateTransformFromGDAL originX originY pixelWidth pixelHeight rotationX
      rotationY W H s).m_inverseTransform = s.m_inverseTransform ∧
    (GeoTransformHandler.updateTransformFromGDAL originX originY pixelWidth pixelHeight rotationX
      rotationY W H s).m_geoTransform
      = ![originX, pixelWidth, rotationX, originY, rotationY, pixelHeight] ∧
    (GeoTransformHandler.updateTransformFromGDAL originX originY pixelWidth pixelHeight rotationX
      rotationY W H s).m_imageWidth = W ∧
    (GeoTransformHandler.updateTransformFromGDAL originX originY pixelWidth pixelHeight rotationX
      rotationY W H s).m_imageHeight = H ∧
    (GeoTransformHandler.updateTransformFromGDAL originX originY pixelWidth pixelHeight rotationX
      rotationY W H s).getImageCornerCoordinates
      = [⟨originX, originY⟩,
         ⟨originX + W * pixelWidth, originY + W * rotationY⟩,
         ⟨originX + W * pixelWidth + H * rotationX, originY + W * rotationY + H * pixelHeight⟩,
         ⟨originX + H * rotationX, originY + H * pixelHeight⟩] ∧
    (GeoTransformHandler.updateTransformFromGDAL originX originY pixelWidth pixelHeight rotationX
      rotationY W H s).worldToPixel x y = s.worldToPixel x y ∧
    (GeoTransformHandler.Update.run us s).worldToPixel x y = s.worldToPixel x y ∧
    (GeoTransformHandler.Update.run us GeoTransformHandler.new).worldToPixel x y = ⟨0, 0⟩ := by
  have hinv := GeoTransformHandler.updateTransformFromGDAL_inverse_of_singular s originX originY
    pixelWidth pixelHeight rotationX rotationY W H hsing
  refine ⟨hinv,
    GeoTransformHandler.updateTransformFromGDAL_geoTransform s originX originY pixelWidth
      pixelHeight rotationX rotationY W H,
    GeoTransformHandler.updateTransformFromGDAL_imageWidth s originX originY pixelWidth
      pixelHeight rotationX rotationY W H,
    GeoTransformHandler.updateTransformFromGDAL_imageHeight s originX originY pixelWidth
      pixelHeight rotationX rotationY W H,
    GeoTransformHandler.updateTransformFromGDAL_imageCorners s originX originY pixelWidth
      pixelHeight rotationX rotationY W H, ?_, ?_, ?_⟩
  · simp only [GeoTransformHandler.worldToPixel, hinv]
  · simp only [GeoTransformHandler.worldToPixel,
      GeoTransformHandler.run_inverse_of_singular us hus s]
  · have hnew := GeoTransformHandler.run_inverse_of_singular us hus
      (GeoTransformHandler.new : GeoTransformHandler K)
    simp only [GeoTransformHandler.worldToPixel, hnew]
    simp [GeoTransformHandler.new]

/-- Witness of C14: after the north-up transform `[100,1,0,200,0,-1]`, the singular calls
`[0,1,1,0,2,2]` and all-zero leave `worldToPixel(105, 198)` as it was, at `K := ℚ`. -/
theorem handler_singular_gdal_frame_witness :
    (GeoTransformHandler.updateTransformFromGDAL (0 : ℚ) 0 1 2 1 2 10 5
        (GeoTransformHandler.updateTransformFromGDAL 100 200 1 (-1) 0 0 10 5
          GeoTransformHandler.new)).worldToPixel 105 198
      = (GeoTransformHandler.updateTransformFromGDAL (100 : ℚ) 200 1 (-1) 0 0 10 5
          GeoTransformHandler.new).worldToPixel 105 198 ∧
    (GeoTransformHandler.Update.run [.gdal 0 0 1 2 1 2 10 5, .gdal 0 0 0 0 0 0 3 3]
        (GeoTransformHandler.updateTransformFromGDAL (100 : ℚ) 200 1 (-1) 0 0 10 5
          GeoTransformHandler.new)).worldToPixel 105 198
      = (GeoTransformHandler.updateTransformFromGDAL (100 : ℚ) 200 1 (-1) 0 0 10 5
          GeoTransformHandler.new).worldToPixel 105 198 :=
  ⟨(handler_singular_gdal_frame
      (GeoTransformHandler.updateTransformFromGDAL (100 : ℚ) 200 1 (-1) 0 0 10 5
        GeoTransformHandler.new)
      0 0 1 2 1 2 10 5 105 198 [.gdal 0 0 1 2 1 2 10 5, .gdal 0 0 0 0 0 0 3 3]
      (by norm_num [singularEps])
      (by
        intro u hu
        simp only [List.mem_cons, List.mem_singleton, List.not_mem_nil, or_false] at hu
        rcases hu with rfl | rfl
        · show |(1 : ℚ) * 2 - 1 * 2| < singularEps
          norm_num [singularEps]
        · show |(0 : ℚ) * 0 - 0 * 0| < singularEps
          norm_num [singularEps])).2.2.2.2.2.1,
   (handler_singular_gdal_frame
      (GeoTransformHandler.updateTransformFromGDAL (100 : ℚ) 200 1 (-1) 0 0 10 5
        GeoTransformHandler.new)
      0 0 1 2 1 2 10 5 105 198 [.gdal 0 0 1 2 1 2 10 5, .gdal 0 0 0 0 0 0 3 3]
      (by norm_num [singularEps])
      (by
        intro u hu
        simp only [List.mem_cons, List.mem_singleton, List.not_mem_nil, or_false] at hu
        rcases hu with rfl | rfl
        · show |(1 : ℚ) * 2 - 1 * 2| < singularEps
          norm_num [singularEps]
        · show |(0 : ℚ) * 0 - 0 * 0| < singularEps
          norm_num [singularEps])).2.2.2.2.2.2.1⟩

/-- C15: after `updateTransformFromGDAL`, `getImageCornerCoordinates` returns exactly four
points, in the order top-left, top-right, bottom-right, bottom-left, equal to the forward map at
`(0,0)`, `(W,0)`, `(W,H)`, `(0,H)`, that is `(c0, c3)`, `(c0+W*c1, c3+W*c4)`,
`(c0+W*c1+H*c2, c3+W*c4+H*c5)`, `(c0+H*c2, c3+H*c5)`, the list `GeoTiffMatrix.getImageCorners`
gives for the same coefficients and dimensions. -/
theorem handler_gdal_corners (sh : GeoTransformHandler K) (sm : GeoTiffMatrix K)
    (originX originY pixelWidth pixelHeight rotationX rotationY : K) (W H : Int) :
    (GeoTransformHandler.updateTransformFromGDAL originX originY pixelWidth pixelHeight rotationX
      rotationY W H sh).getImageCornerCoordinates.length = 4 ∧
    (GeoTransformHandler.updateTransformFromGDAL originX originY pixelWidth pixelHeight rotationX
      rotationY W H sh).getImageCornerCoordinates
      = [⟨originX, originY⟩,
         ⟨originX + W * pixelWidth, originY + W * rotationY⟩,
         ⟨originX + W * pixelWidth + H * rotationX, originY + W * rotationY + H * pixelHeight⟩,
         ⟨originX + H * rotationX, originY + H * pixelHeight⟩] ∧
    (GeoTransformHandler.updateTransformFromGDAL originX originY pixelWidth pixelHeight rotationX
      rotationY W H sh).getImageCornerCoordinates
      = [⟨((GeoTransformHandler.updateTransformFromGDAL originX originY pixelWidth pixelHeight
              rotationX rotationY W H sh).pixelToWorld 0 0).longitude,
          ((GeoTransformHandler.updateTransformFromGDAL originX originY pixelWidth pixelHeight
              rotationX rotationY W H sh).pixelToWorld 0 0).latitude⟩,
         ⟨((GeoTransformHandler.updateTransformFromGDAL originX originY pixelWidth pixelHeight
              rotationX rotationY W H sh).pixelToWorld W 0).longitude,
          ((GeoTransformHandler.updateTransformFromGDAL originX originY pixelWidth pixelHeight
              rotationX rotationY W H sh).pixelToWorld W 0).latitude⟩,
         ⟨((GeoTransformHandler.updateTransformFromGDAL originX originY pixelWidth pixelHeight
              rotationX rotationY W H sh).pixelToWorld W H).longitude,
          ((GeoTransformHandler.updateTransformFromGDAL originX originY pixelWidth pixelHeight
              rotationX rotationY W H sh).pixelToWorld W H).latitude⟩,
         ⟨((GeoTransformHandler.updateTransformFromGDAL originX originY pixelWidth pixelHeight
              rotationX rotationY W H sh).pixelToWorld 0 H).longitude,
          ((GeoTransformHandler.updateTransformFromGDAL originX originY pixelWidth pixelHeight
              rotationX rotationY W H sh).pixelToWorld 0 H).latitude⟩] ∧
    (GeoTransformHandler.updateTransformFromGDAL originX originY pixelWidth pixelHeight rotationX
      rotationY W H sh).getImageCornerCoordinates
      = (GeoTiffMatrix.setGeoTransform
          [originX, pixelWidth, rotationX, originY, rotationY, pixelHeight] W H
          sm).getImageCorners := by
  have hc := GeoTransformHandler.updateTransformFromGDAL_imageCorners sh originX originY
    pixelWidth pixelHeight rotationX rotationY W H
  refine ⟨?_, hc, ?_, ?_⟩
  · rw [hc]; rfl
  · rw [hc]
    simp only [GeoTransformHandler.pixelToWorld,
      GeoTransformHandler.updateTransformFromGDAL_geoTransform, vec6_zero, vec6_one, vec6_two,
      vec6_three, vec6_four, vec6_five]
    simp
  · rw [hc]
    simp only [GeoTiffMatrix.getImageCorners, GeoTiffMatrix.pixelToWorld,
      GeoTiffMatrix.setGeoTransform_width, GeoTiffMatrix.setGeoTransform_height,
      GeoTiffMatrix.setGeoTransform_geoTransform, vec6_zero, vec6_one, vec6_two, vec6_three,
      vec6_four, vec6_five]
    simp

/-! ## The three-corner fit of `updateTransform` -/

theorem GeoTransformHandler.updateTransform_geoTransform (s : GeoTransformHandler K)
    (topLeftLon topLeftLat topRightLon topRightLat bottomLeftLon bottomLeftLat bottomRightLon
      bottomRightLat : K) (W H : Int) :
    (GeoTransformHandler.updateTransform topLeftLon topLeftLat topRightLon topRightLat
      bottomLeftLon bottomLeftLat bottomRightLon bottomRightLat W H s).m_geoTransform
      = ![topLeftLon, (topRightLon - topLeftLon) / (W : K),
          (bottomLeftLon - topLeftLon) / (H : K), topLeftLat,
          (topRightLat - topLeftLat) / (W : K), (bottomLeftLat - topLeftLat) / (H : K)] := by
  unfold GeoTransformHandler.updateTransform
  dsimp only
  rw [GeoTransformHandler.calculateInverseTransform_geoTransform]
  funext i
  fin_cases i <;> rfl

theorem GeoTransformHandler.updateTransform_imageCorners (s : GeoTransformHandler K)
    (topLeftLon topLeftLat topRightLon topRightLat bottomLeftLon bottomLeftLat bottomRightLon
      bottomRightLat : K) (W H : Int) :
    (GeoTransformHandler.updateTransform topLeftLon topLeftLat topRightLon topRightLat
      bottomLeftLon bottomLeftLat bottomRightLon bottomRightLat W H s).getImageCornerCoordinates
      = [⟨topLeftLon, topLeftLat⟩, ⟨topRightLon, topRightLat⟩,
         ⟨bottomRightLon, bottomRightLat⟩, ⟨bottomLeftLon, bottomLeftLat⟩] := by
  unfold GeoTransformHandler.getImageCornerCoordinates GeoTransformHandler.updateTransform
  dsimp only
  rw [GeoTransformHandler.calculateInverseTransform_imageCorners]

/-- C16: for `updateTransform(TL, TR, BL, BR, W, H)` with `W != 0` and `H != 0`, the derived
coefficients do not depend on `BR` (any other bottom-right corner `BR'` gives the same ones),
the forward map sends `(0,0)` to `TL`, `(W,0)` to `TR`, `(0,H)` to `BL` and `(W,H)` to
`TR + BL - TL`, the stored corners are the given ones verbatim, and `pixelToWorld(W,H)` equals
the stored bottom-right corner if and only if `TR - TL = BR - BL`, that is, the four given
corners form a parallelogram. -/
theorem handler_three_corner_fit (s : GeoTransformHandler K)
    (topLeftLon topLeftLat topRightLon topRightLat bottomLeftLon bottomLeftLat bottomRightLon
      bottomRightLat otherLon otherLat : K) (W H : Int) (hW : W ≠ 0) (hH : H ≠ 0) :
    (GeoTransformHandler.updateTransform topLeftLon topLeftLat topRightLon topRightLat
        bottomLeftLon bottomLeftLat bottomRightLon bottomRightLat W H s).m_geoTransform
      = (GeoTransformHandler.updateTransform topLeftLon topLeftLat topRightLon topRightLat
        bottomLeftLon bottomLeftLat otherLon otherLat W H s).m_geoTransform ∧
    (GeoTransformHandler.updateTransform topLeftLon topLeftLat topRightLon topRightLat
        bottomLeftLon bottomLeftLat bottomRightLon bottomRightLat W H s).pixelToWorld 0 0
      = ⟨topLeftLat, topLeftLon⟩ ∧
    (GeoTransformHandler.updateTransform topLeftLon topLeftLat topRightLon topRightLat
        bottomLeftLon bottomLeftLat bottomRightLon bottomRightLat W H s).pixelToWorld W 0
      = ⟨topRightLat, topRightLon⟩ ∧
    (GeoTransformHandler.updateTransform topLeftLon topLeftLat topRightLon topRightLat
        bottomLeftLon bottomLeftLat bottomRightLon bottomRightLat W H s).pixelToWorld 0 H
      = ⟨bottomLeftLat, bottomLeftLon⟩ ∧
    (GeoTransformHandler.updateTransform topLeftLon topLeftLat topRightLon topRightLat
        bottomLeftLon bottomLeftLat bottomRightLon bottomRightLat W H s).pixelToWorld W H
      = ⟨topRightLat + bottomLeftLat - topLeftLat, topRightLon + bottomLeftLon - topLeftLon⟩ ∧
    (GeoTransformHandler.updateTransform topLeftLon topLeftLat topRightLon topRightLat
        bottomLeftLon bottomLeftLat bottomRightLon bottomRightLat W H
        s).getImageCornerCoordinates
      = [⟨topLeftLon, topLeftLat⟩, ⟨topRightLon, topRightLat⟩,
         ⟨bottomRightLon, bottomRightLat⟩, ⟨bottomLeftLon, bottomLeftLat⟩] ∧
    ((⟨((GeoTransformHandler.updateTransform topLeftLon topLeftLat topRightLon topRightLat
          bottomLeftLon bottomLeftLat bottomRightLon bottomRightLat W H s).pixelToWorld
          W H).longitude,
        ((GeoTransformHandler.updateTransform topLeftLon topLeftLat topRightLon topRightLat
          bottomLeftLon bottomLeftLat bottomRightLon bottomRightLat W H s).pixelToWorld
          W H).latitude⟩ : QPointF K) = ⟨bottomRightLon, bottomRightLat⟩
      ↔ topRightLon - topLeftLon = bottomRightLon - bottomLeftLon ∧
        topRightLat - topLeftLat = bottomRightLat - bottomLeftLat) := by
  have hWK : (W : K) ≠ 0 := Int.cast_ne_zero.mpr hW
  have hHK : (H : K) ≠ 0 := Int.cast_ne_zero.mpr hH
  have hWH : (GeoTransformHandler.updateTransform topLeftLon topLeftLat topRightLon topRightLat
        bottomLeftLon bottomLeftLat bottomRightLon bottomRightLat W H s).pixelToWorld W H
      = ⟨topRightLat + bottomLeftLat - topLeftLat,
         topRightLon + bottomLeftLon - topLeftLon⟩ := by
    simp only [GeoTransformHandler.pixelToWorld,
      GeoTransformHandler.updateTransform_geoTransform, vec6_zero, vec6_one, vec6_two,
      vec6_three, vec6_four, vec6_five, QGeoCoordinate.mk.injEq]
    constructor <;> field_simp <;> ring
  refine ⟨?_, ?_, ?_, ?_, hWH, ?_, ?_⟩
  · rw [GeoTransformHandler.updateTransform_geoTransform,
      GeoTransformHandler.updateTransform_geoTransform]
  · simp only [GeoTransformHandler.pixelToWorld,
      GeoTransformHandler.updateTransform_geoTransform, vec6_zero, vec6_one, vec6_two,
      vec6_three, vec6_four, vec6_five]
    simp
  · simp only [GeoTransformHandler.pixelToWorld,
      GeoTransformHandler.updateTransform_geoTransform, vec6_zero, vec6_one, vec6_two,
      vec6_three, vec6_four, vec6_five, QGeoCoordinate.mk.injEq]
    constructor <;> field_simp
  · simp only [GeoTransformHandler.pixelToWorld,
      GeoTransformHandler.updateTransform_geoTransform, vec6_zero, vec6_one, vec6_two,
      vec6_three, vec6_four, vec6_five, QGeoCoordinate.mk.injEq]
    constructor <;> field_simp
  · exact GeoTransformHandler.updateTransform_imageCorners s topLeftLon topLeftLat topRightLon
      topRightLat bottomLeftLon bottomLeftLat bottomRightLon bottomRightLat W H
  · rw [hWH, QPointF.mk.injEq]
    constructor
    · rintro ⟨h1, h2⟩
      exact ⟨by linear_combination h1, by linear_combination h2⟩
    · rintro ⟨h1, h2⟩
      exact ⟨by linear_combination h1, by linear_combination h2⟩

/-- Witness of C16: the corners `TL = (0,10)`, `TR = (10,10)`, `BL = (0,0)` and the
non-parallelogram `BR = (12,1)` with `W = 10`, `H = 5`, at `K := ℚ`: the forward map sends
`(10,5)` to longitude `10`, latitude `0`. -/
theorem handler_three_corner_fit_witness :
    (GeoTransformHandler.updateTransform (0 : ℚ) 10 10 10 0 0 12 1 10 5
        GeoTransformHandler.new).pixelToWorld 10 5
      = ⟨(10 : ℚ) + 0 - 10, (10 : ℚ) + 0 - 0⟩ :=
  (handler_three_corner_fit GeoTransformHandler.new (0 : ℚ) 10 10 10 0 0 12 1 0 0 10 5
    (by decide) (by decide)).2.2.2.2.1

/-! ## The determinant threshold -/

/-- C17: `GeoTiffMatrix.worldToPixel` returns the `(0, 0)` sentinel for every world point exactly
when `|c1*c5 - c2*c4| < 1e-10`; for the coefficients `[0, 1e-6, 0, 0, 0, -1e-6]`, whose
determinant `-1e-12` is nonzero, `pixelToWorld(1, 1)` is `(1e-6, -1e-6)` and `worldToPixel` of
that point is `(0, 0)`, not `(1, 1)`, although the exact inverse formula gives `(1, 1)`. -/
theorem matrix_threshold_rejects_invertible (s : GeoTiffMatrix K) (c0 c1 c2 c3 c4 c5 : K)
    (W H : Int) :
    ((∀ x y : K,
        (GeoTiffMatrix.setGeoTransform [c0, c1, c2, c3, c4, c5] W H s).worldToPixel x y
          = ⟨0, 0⟩)
      ↔ |c1 * c5 - c2 * c4| < singularEps) ∧
    ((1 / 1000000 : K) * (-1 / 1000000) - 0 * 0 ≠ 0) ∧
    (GeoTiffMatrix.setGeoTransform [0, 1 / 1000000, 0, 0, 0, -1 / 1000000] W H s).pixelToWorld
        1 1 = ⟨1 / 1000000, -1 / 1000000⟩ ∧
    (GeoTiffMatrix.setGeoTransform [0, 1 / 1000000, 0, 0, 0, -1 / 1000000] W H s).worldToPixel
        ((GeoTiffMatrix.setGeoTransform [0, 1 / 1000000, 0, 0, 0, -1 / 1000000] W H
          s).pixelToWorld 1 1).x
        ((GeoTiffMatrix.setGeoTransform [0, 1 / 1000000, 0, 0, 0, -1 / 1000000] W H
          s).pixelToWorld 1 1).y = ⟨0, 0⟩ ∧
    (GeoTiffMatrix.setGeoTransform [0, 1 / 1000000, 0, 0, 0, -1 / 1000000] W H s).worldToPixel
        ((GeoTiffMatrix.setGeoTransform [0, 1 / 1000000, 0, 0, 0, -1 / 1000000] W H
          s).pixelToWorld 1 1).x
        ((GeoTiffMatrix.setGeoTransform [0, 1 / 1000000, 0, 0, 0, -1 / 1000000] W H
          s).pixelToWorld 1 1).y ≠ ⟨1, 1⟩ ∧
    ((-1 / 1000000 : K) * (1 / ((1 / 1000000 : K) * (-1 / 1000000) - 0 * 0))
          * (1 / 1000000 - 0)
        - 0 * (1 / ((1 / 1000000 : K) * (-1 / 1000000) - 0 * 0)) * (-1 / 1000000 - 0) = 1 ∧
      -(0 : K) * (1 / ((1 / 1000000 : K) * (-1 / 1000000) - 0 * 0)) * (1 / 1000000 - 0)
        + (1 / 1000000 : K) * (1 / ((1 / 1000000 : K) * (-1 / 1000000) - 0 * 0))
          * (-1 / 1000000 - 0) = 1) := by
  have hsmall : |(1 / 1000000 : K) * (-1 / 1000000) - 0 * 0| < singularEps := by
    rw [abs_of_neg (by norm_num)]
    norm_num [singularEps]
  have hsent : ∀ x y : K,
      (GeoTiffMatrix.setGeoTransform [0, 1 / 1000000, 0, 0, 0, -1 / 1000000] W H
        s).worldToPixel x y = ⟨0, 0⟩ := by
    intro x y
    simp only [GeoTiffMatrix.worldToPixel, GeoTiffMatrix.setGeoTransform_geoTransform,
      vec6_zero, vec6_one, vec6_two, vec6_three, vec6_four, vec6_five]
    rw [if_pos (by rw [qAbs_eq_abs]; exact hsmall)]
  refine ⟨⟨?_, ?_⟩, by norm_num, ?_, hsent _ _, ?_, ?_⟩
  · intro hall
    by_contra hlt
    have hdet : singularEps ≤ |c1 * c5 - c2 * c4| := not_lt.mp hlt
    have h := (GeoTiffMatrix.worldToPixel_eq_zero_iff s c0 c1 c2 c3 c4 c5 W H (c0 + 1) c3
      hdet).mp (hall (c0 + 1) c3)
    have h1 : (1 : K) = 0 := by linear_combination h.1
    exact one_ne_zero h1
  · intro hlt x y
    simp only [GeoTiffMatrix.worldToPixel, GeoTiffMatrix.setGeoTransform_geoTransform,
      vec6_zero, vec6_one, vec6_two, vec6_three, vec6_four, vec6_five]
    rw [if_pos (by rw [qAbs_eq_abs]; exact hlt)]
  · simp only [GeoTiffMatrix.pixelToWorld, GeoTiffMatrix.setGeoTransform_geoTransform,
      vec6_zero, vec6_one, vec6_two, vec6_three, vec6_four, vec6_five]
    simp
  · rw [hsent]
    simp
  · constructor <;> norm_num

end GeoTiff
